import Mathlib

/-!
# Reportes-Integracion: the authenticated fetch of `reporte7/microLibros/static/script.js`

A shallow embedding of the session variables (`accessToken`, `refreshToken`, the
`localStorage` entry `"refreshToken"`), of `getNewAccessToken` and of `fetchProtected`, and
of the handlers built on them: `checkLoginState`, `handleLogin`, `showOperationStatus`,
`handleInsert` and `handleDelete` (the latter also in its `reporte6` version).

Modelling conventions.

* A JavaScript value that a token variable can hold is `undefined`, `null`, a string, or
  any other value (a number, a boolean, an object, an array), which is given by the two
  things the code does with it: its truthiness and its string conversion (`JsVal`).
  `JsVal.truthy` is the test made by `if (x)`, `!x` and `x || y`.  The words "held",
  "present", "available" are read the way the code tests them, as truthiness.
* `await fetch(..)` is a call to a network oracle `Net`: given the events that happened so
  far and the request, it yields a transport error or a `Response`.  Every theorem
  quantifies over the oracle, that is over every behaviour of the two remote services.
* The state carries a ghost trace of events: every `fetch` and every entry into
  `getNewAccessToken`.  Console output is not modelled.
* One call runs to its end without other handlers interleaving at an `await`.
* `initializeApp()` is called without `await`: the caller only starts it.  The page counts
  these starts; the body of `initializeApp` (loading the catalog through `fetchProtected`,
  filling the selects) is not embedded.
* The browser's XML parser is not part of the repository: the text content of the first
  `message` element of a document is a parameter `firstMessage`.
-/

namespace MicroLibros

/-- JavaScript values that the token variables and JSON token fields range over:
`undefined`, `null`, a string, or another value (a number, a boolean, an object, an array)
given by its truthiness and its string conversion; the number `123` is `other true "123"`. -/
inductive JsVal
  | undefined
  | null
  | str (s : String)
  | other (truthy : Bool) (text : String)
  deriving DecidableEq, Repr

namespace JsVal

/-- JavaScript truthiness (`if (x)`): `undefined`, `null` and `""` are falsy. -/
def truthy : JsVal → Bool
  | str s => decide (s ≠ "")
  | other b _ => b
  | _ => false

/-- String conversion, as done by a template literal and by `localStorage.setItem`. -/
def toStr : JsVal → String
  | undefined => "undefined"
  | null => "null"
  | str s => s
  | other _ text => text

/-- The JavaScript expression `a || b`. -/
def or (a b : JsVal) : JsVal :=
  if a.truthy then a else b

end JsVal

/-- What `response.json()` resolves to: the JSON literal `null`, or a value that is not
`null`, given by the fields that can be read from it (a JSON number, string, boolean or array
has none of the fields read here and stands as `obj []`). -/
inductive JsonData
  | null
  | obj (fields : List (String × JsVal))
  deriving DecidableEq, Repr

/-- Property read `data.key`: a `TypeError` on `null`, `undefined` for a missing key. -/
def JsonData.prop : JsonData → String → Except String JsVal
  | JsonData.null, _ => Except.error "TypeError"
  | JsonData.obj fields, key => Except.ok ((fields.lookup key).getD JsVal.undefined)

/-- A plain header object: keys with values, looked up by exact key. -/
abbrev Headers := List (String × String)

/-- Read `headers[key]`. -/
def Headers.get : Headers → String → Option String
  | [], _ => none
  | (k, v) :: rest, key => if k = key then some v else Headers.get rest key

/-- Assignment `headers[key] = value`: overwrites the entry when the key exists, adds it otherwise. -/
def Headers.set : Headers → String → String → Headers
  | [], key, value => [(key, value)]
  | (k, v) :: rest, key, value =>
    if k = key then (key, value) :: rest else (k, v) :: Headers.set rest key value

/-- A request body: a given text, or `JSON.stringify` of an object literal: `jsonOf` with
these fields; `jsonArrayOf` with one field holding an array of strings; `jsonOfBook` with the
members of a book taken from these texts (`year`, `price` and `stock` go through `parseInt`
and `parseFloat`, whose number parsing is not modelled). -/
inductive Body
  | text (s : String)
  | jsonOf (fields : List (String × JsVal))
  | jsonArrayOf (key : String) (items : List String)
  | jsonOfBook (fields : List (String × String))
  deriving DecidableEq, Repr

/-- The `options` argument of `fetchProtected` (every member may be missing). -/
structure Options where
  method : Option String := none
  headers : Option Headers := none
  body : Option Body := none
  deriving DecidableEq, Repr

/-- A call `fetch(url, options)` as it reaches the network. -/
structure Request where
  url : String
  method : Option String
  headers : Headers
  body : Option Body
  deriving DecidableEq, Repr

/-- An HTTP response: its status, what reading its body as JSON gives (a value or a throw),
and what reading it as text gives (`text`, or a throw with the message `textFailure`). -/
structure Response where
  status : Nat
  text : String
  json : Except String JsonData
  textFailure : Option String := none

/-- The getter `response.ok`: status in the range 200 to 299. -/
def Response.ok (r : Response) : Bool :=
  decide (200 ≤ r.status) && decide (r.status ≤ 299)

/-- Observable steps of a run: a network call, or an entry into `getNewAccessToken`. -/
inductive Event
  | fetch (req : Request)
  | refresh
  deriving DecidableEq, Repr

/-- The network: from the events so far and a request to a transport error or a response. -/
abbrev Net := List Event → Request → Except String Response

/-- Session State with the durable `localStorage` entry and the ghost trace. -/
structure State where
  accessToken : JsVal
  refreshToken : JsVal
  storedRefreshToken : Option String
  trace : List Event

/-- The call `localStorage.getItem("refreshToken")`: `null` when there is no entry. -/
def State.getItem (s : State) : JsVal :=
  match s.storedRefreshToken with
  | none => JsVal.null
  | some v => JsVal.str v

/-- Append an event to the trace. -/
def State.emit (s : State) (e : Event) : State :=
  { s with trace := s.trace ++ [e] }

/-- The constant `AUTH_SERVICE_URL`. -/
def AUTH_SERVICE_URL : String := "http://34.133.201.117:5002"

/-- The request that `getNewAccessToken` sends for the token `tokenToUse`. -/
def refreshRequest (tokenToUse : JsVal) : Request :=
  { url := AUTH_SERVICE_URL ++ "/auth/refresh"
    method := some "POST"
    headers := [("Content-Type", "application/json")]
    body := some (Body.jsonOf [("refresh_token", tokenToUse)]) }

/-- The `try` block of `getNewAccessToken` up to the read of `data.access_token`:
the value read, or the exception that reaches the `catch`. -/
def refreshExchange (answer : Except String Response) : Except String JsVal := do
  let response ← answer
  let data ← response.json
  if !response.ok then
    let e ← data.prop "error"
    throw e.toStr
  data.prop "access_token"

/-- The function `getNewAccessToken`: the boolean it resolves to and the state it leaves. -/
def getNewAccessToken (net : Net) (s : State) : Bool × State :=
  let s0 := s.emit Event.refresh
  let tokenToUse := s0.refreshToken.or s0.getItem
  if !tokenToUse.truthy then
    (false, s0)
  else
    let req := refreshRequest tokenToUse
    let s1 := s0.emit (Event.fetch req)
    match refreshExchange (net s0.trace req) with
    | Except.ok a => (true, { s1 with accessToken := a, refreshToken := tokenToUse })
    | Except.error _ =>
      (false, { s1 with accessToken := JsVal.null, refreshToken := JsVal.null,
                        storedRefreshToken := none })

/-- The request `fetch(url, options)` for given headers. -/
def mkRequest (url : String) (options : Options) (headers : Headers) : Request :=
  { url := url, method := options.method, headers := headers, body := options.body }

/-- The header object after the first lines of `fetchProtected`: the caller's headers (an
empty object when missing), with `Authorization` assigned when `accessToken` is truthy. -/
def firstHeaders (s : State) (options : Options) : Headers :=
  let headers := options.headers.getD []
  if s.accessToken.truthy then
    headers.set "Authorization" ("Bearer " ++ s.accessToken.toStr)
  else headers

/-- The first request of `fetchProtected`: the argument of its first `fetch`. -/
def firstRequest (s : State) (url : String) (options : Options) : Request :=
  mkRequest url options (firstHeaders s options)

/-- The function `fetchProtected`: the response it resolves to or the error it rejects with,
and the state it leaves. -/
def fetchProtected (net : Net) (s : State) (url : String) (options : Options) :
    Except String Response × State :=
  let headers := firstHeaders s options
  let req1 := mkRequest url options headers
  let s1 := s.emit (Event.fetch req1)
  match net s.trace req1 with
  | Except.error e => (Except.error e, s1)
  | Except.ok response =>
    if response.status = 401 then
      let r := getNewAccessToken net s1
      if r.1 then
        let headers2 := headers.set "Authorization" ("Bearer " ++ r.2.accessToken.toStr)
        let req2 := mkRequest url options headers2
        (net r.2.trace req2, r.2.emit (Event.fetch req2))
      else (Except.ok response, r.2)
    else (Except.ok response, s1)

/-- The network calls of a trace, in order. -/
def fetches : List Event → List Request
  | [] => []
  | Event.fetch req :: rest => req :: fetches rest
  | Event.refresh :: rest => fetches rest

/-- How many times `getNewAccessToken` was entered in a trace. -/
def refreshCount : List Event → Nat
  | [] => 0
  | Event.fetch _ :: rest => refreshCount rest
  | Event.refresh :: rest => refreshCount rest + 1

/-! ## Strings: `trim` and `split` -/

/-- The characters that `String.prototype.trim` strips: ECMAScript white space and line
terminators. -/
def isJsWhitespace (c : Char) : Bool :=
  c.toNat = 0x09 || c.toNat = 0x0A || c.toNat = 0x0B || c.toNat = 0x0C || c.toNat = 0x0D ||
  c.toNat = 0x20 || c.toNat = 0xA0 || c.toNat = 0x1680 ||
  (decide (0x2000 ≤ c.toNat) && decide (c.toNat ≤ 0x200A)) ||
  c.toNat = 0x2028 || c.toNat = 0x2029 || c.toNat = 0x202F || c.toNat = 0x205F ||
  c.toNat = 0x3000 || c.toNat = 0xFEFF

/-- The method `trim` on the characters of a string: strip at both ends. -/
def trimChars (l : List Char) : List Char :=
  (l.dropWhile isJsWhitespace).rdropWhile isJsWhitespace

/-- The method `s.trim()`. -/
def jsTrim (s : String) : String :=
  String.mk (trimChars s.data)

/-- The method `split` with a one-character separator, on the characters of a string: the
pieces between the separators (a single empty piece for the empty string). -/
def splitChars (sep : Char) : List Char → List (List Char)
  | [] => [[]]
  | c :: cs =>
    if c = sep then [] :: splitChars sep cs
    else
      match splitChars sep cs with
      | [] => [[c]]
      | piece :: pieces => (c :: piece) :: pieces

/-- The method `s.split(sep)` for a one-character separator. -/
def jsSplit (s : String) (sep : Char) : List String :=
  (splitChars sep s.data).map String.mk

/-! ## The page: panels, forms and handlers -/

/-- The values of the eight required inputs of the insert form. -/
structure InsertForm where
  insertIsbn : String
  insertTitle : String
  insertYear : String
  insertPrice : String
  insertStock : String
  insertGenre : String
  insertFormat : String
  insertAuthors : String
  deriving DecidableEq, Repr

/-- The array `requiredFields` of `handleInsert`, as the values of its inputs. -/
def InsertForm.requiredFields (f : InsertForm) : List String :=
  [f.insertIsbn, f.insertTitle, f.insertYear, f.insertPrice, f.insertStock, f.insertGenre,
   f.insertFormat, f.insertAuthors]

/-- The insert form after `requiredFields.forEach(f => f.value = "")`. -/
def InsertForm.cleared : InsertForm :=
  { insertIsbn := "", insertTitle := "", insertYear := "", insertPrice := "",
    insertStock := "", insertGenre := "", insertFormat := "", insertAuthors := "" }

/-- The page: Session State, the count of starts of `initializeApp`, and the DOM members
that the handlers read and write. -/
structure Page where
  session : State
  initializeAppCalls : Nat
  loginPanelDisplay : String
  mainContainerDisplay : String
  authStatusText : String
  loginStatusText : String
  loginStatusColor : String
  protocolSelect : String
  hostInput : String
  portInput : String
  basePathInput : String
  insertForm : InsertForm
  insertStatusText : String
  insertStatusColor : String
  deleteIsbns : String
  deleteStatusText : String
  deleteStatusColor : String

/-- The function `utils.getRootApiUrl` of `utils.js`. -/
def getRootApiUrl (p : Page) : String :=
  p.protocolSelect ++ "://" ++ jsTrim p.hostInput ++ ":" ++ jsTrim p.portInput
    ++ jsTrim p.basePathInput

/-- The function `checkLoginState`. -/
def checkLoginState (net : Net) (p : Page) : Page :=
  let storedRefreshToken := p.session.getItem
  if storedRefreshToken.truthy then
    let p1 := { p with loginPanelDisplay := "none", authStatusText := "Verificando sesión..." }
    let r := getNewAccessToken net p1.session
    if r.1 then
      { p1 with session := r.2
                mainContainerDisplay := "flex"
                authStatusText := "Autenticado (sesión recuperada)"
                initializeAppCalls := p1.initializeAppCalls + 1 }
    else
      { p1 with session := r.2
                loginPanelDisplay := "block"
                mainContainerDisplay := "none"
                authStatusText := ""
                loginStatusText := "Tu sesión expiró. Por favor, inicia sesión de nuevo."
                loginStatusColor := "red" }
  else
    { p with loginPanelDisplay := "block", mainContainerDisplay := "none" }

/-- The request that `handleLogin` sends. -/
def loginRequest (email password : String) : Request :=
  { url := AUTH_SERVICE_URL ++ "/auth/login"
    method := some "POST"
    headers := [("Content-Type", "application/json")]
    body := some (Body.jsonOf [("email", JsVal.str email), ("password", JsVal.str password)]) }

/-- The `try` block of `handleLogin` up to the reads of `data.access_token` and
`data.refresh_token`: the two values read, or the message of the exception that reaches the
`catch`. -/
def loginExchange (answer : Except String Response) : Except String (JsVal × JsVal) := do
  let response ← answer
  let data ← response.json
  if !response.ok then
    let e ← data.prop "error"
    throw (if e.truthy then e.toStr else "Error al iniciar sesión")
  let a ← data.prop "access_token"
  let r ← data.prop "refresh_token"
  pure (a, r)

/-- The function `handleLogin`, for the values of the email and password inputs. -/
def handleLogin (net : Net) (p : Page) (email password : String) : Page :=
  if email = "" ∨ password = "" then
    { p with loginStatusText := "Email y contraseña requeridos.", loginStatusColor := "red" }
  else
    let p1 := { p with loginStatusText := "Iniciando sesión...", loginStatusColor := "blue" }
    let req := loginRequest email password
    let s1 := p1.session.emit (Event.fetch req)
    match loginExchange (net p1.session.trace req) with
    | Except.ok (a, r) =>
      { p1 with session := { s1 with accessToken := a, refreshToken := r,
                                     storedRefreshToken := some r.toStr }
                loginPanelDisplay := "none"
                mainContainerDisplay := "flex"
                authStatusText := "Autenticado como: " ++ email
                initializeAppCalls := p1.initializeAppCalls + 1 }
    | Except.error message =>
      { p1 with session := s1, loginStatusText := message, loginStatusColor := "red" }

/-- The function `showOperationStatus`: the text and the colour it gives to the status
element. `firstMessage` is the text content of the first `message` element of the parsed
body, if there is one. -/
def showOperationStatus (firstMessage : String → Option String) (response : Response) :
    String × String :=
  match response.textFailure with
  | some e => ("Error al procesar respuesta: " ++ e, "red")
  | none =>
    let found := (firstMessage response.text).getD ""
    let message := if found ≠ "" then found else "Respuesta desconocida"
    if !response.ok then
      ("Error: " ++ message ++ " (Código: " ++ toString response.status ++ ")", "red")
    else
      ("Éxito: " ++ message, "green")

/-- The object `data` of `handleInsert`, as the body of its request. -/
def insertBody (f : InsertForm) : Body :=
  Body.jsonOfBook
    [("isbn", jsTrim f.insertIsbn), ("title", jsTrim f.insertTitle),
     ("year", jsTrim f.insertYear), ("price", jsTrim f.insertPrice),
     ("stock", jsTrim f.insertStock), ("genre", jsTrim f.insertGenre),
     ("format", jsTrim f.insertFormat), ("authors", jsTrim f.insertAuthors)]

/-- The options of the request of `handleInsert`. -/
def insertOptions (f : InsertForm) : Options :=
  { method := some "POST", headers := some [("Content-Type", "application/json")],
    body := some (insertBody f) }

/-- The function `handleInsert`. -/
def handleInsert (net : Net) (firstMessage : String → Option String) (p : Page) : Page :=
  if p.insertForm.requiredFields.any (fun value => jsTrim value = "") then
    { p with insertStatusText := "Error: Todos los campos son obligatorios."
             insertStatusColor := "red" }
  else
    let url := getRootApiUrl p ++ "/books/insert"
    let r := fetchProtected net p.session url (insertOptions p.insertForm)
    match r.1 with
    | Except.error message =>
      { p with session := r.2, insertStatusText := "Error de red: " ++ message
               insertStatusColor := "red" }
    | Except.ok response =>
      let shown := showOperationStatus firstMessage response
      if response.ok then
        { p with session := r.2, insertStatusText := shown.1, insertStatusColor := shown.2
                 insertForm := InsertForm.cleared
                 initializeAppCalls := p.initializeAppCalls + 1 }
      else
        { p with session := r.2, insertStatusText := shown.1, insertStatusColor := shown.2 }

/-- The array `isbns` of `handleDelete`, computed from the text of the delete input. -/
def deleteIsbnList (text : String) : List String :=
  ((jsSplit (jsTrim text) ',').map jsTrim).filter (fun piece => piece ≠ "")

/-- The options of the request of `handleDelete` for a list of ISBNs. -/
def deleteOptions (isbns : List String) : Options :=
  { method := some "DELETE", headers := some [("Content-Type", "application/json")],
    body := some (Body.jsonArrayOf "isbns" isbns) }

/-- The function `handleDelete` of `reporte7/microLibros/static/script.js`. -/
def handleDelete (net : Net) (firstMessage : String → Option String) (p : Page) : Page :=
  let isbns := deleteIsbnList p.deleteIsbns
  if isbns.length = 0 then
    { p with deleteStatusText := "Error: Introduce al menos un ISBN."
             deleteStatusColor := "red" }
  else
    let url := getRootApiUrl p ++ "/books/delete"
    let r := fetchProtected net p.session url (deleteOptions isbns)
    match r.1 with
    | Except.error message =>
      { p with session := r.2, deleteStatusText := "Error de red: " ++ message
               deleteStatusColor := "red" }
    | Except.ok response =>
      let shown := showOperationStatus firstMessage response
      { p with session := r.2, deleteStatusText := shown.1, deleteStatusColor := shown.2
               deleteIsbns := if response.ok then "" else p.deleteIsbns }

/-- The function `handleDelete` of `reporte6/static/script.js`: the same handler over a
plain `fetch`, without tokens. -/
def Reporte6.handleDelete (net : Net) (firstMessage : String → Option String) (p : Page) :
    Page :=
  let isbns := deleteIsbnList p.deleteIsbns
  if isbns.length = 0 then
    { p with deleteStatusText := "Error: Introduce al menos un ISBN."
             deleteStatusColor := "red" }
  else
    let url := getRootApiUrl p ++ "/books/delete"
    let req := mkRequest url (deleteOptions isbns) [("Content-Type", "application/json")]
    let s1 := p.session.emit (Event.fetch req)
    match net p.session.trace req with
    | Except.error message =>
      { p with session := s1, deleteStatusText := "Error de red: " ++ message
               deleteStatusColor := "red" }
    | Except.ok response =>
      let shown := showOperationStatus firstMessage response
      { p with session := s1, deleteStatusText := shown.1, deleteStatusColor := shown.2
               deleteIsbns := if response.ok then "" else p.deleteIsbns }

/-- A step of the session: one call of one of the four operations that touch the tokens,
run from its start to its end. -/
inductive Action
  | login (email password : String)
  | refresh
  | request (url : String) (options : Options)
  | boot

/-- Run one step on a page, as a call that no other call overlaps. The `initializeApp` that
`handleLogin` and `checkLoginState` start without `await` is not run inside the step: the
`fetchProtected` it makes is a `request` step of its own, later in the sequence. -/
def Action.run (net : Net) (p : Page) : Action → Page
  | Action.login email password => handleLogin net p email password
  | Action.refresh => { p with session := (getNewAccessToken net p.session).2 }
  | Action.request url options =>
    { p with session := (fetchProtected net p.session url options).2 }
  | Action.boot => checkLoginState net p

/-- Run a sequence of steps on a page, first step first, each to its end before the next. -/
def runActions (net : Net) (p : Page) (actions : List Action) : Page :=
  actions.foldl (Action.run net) p

/-- The refresh token is mirrored: when one is held in memory, `localStorage` gives the
same value. -/
def Mirrored (s : State) : Prop :=
  s.refreshToken.truthy = true → s.getItem = s.refreshToken

instance : DecidablePred Mirrored := fun s => by
  unfold Mirrored
  infer_instance

/-- The identity service issues refresh tokens that are strings: in no JSON object that the
network returns is `refresh_token` anything but a string, `null` or absent. -/
def StringRefreshTokens (net : Net) : Prop :=
  ∀ trace req response fields b text,
    net trace req = Except.ok response →
    response.json = Except.ok (JsonData.obj fields) →
    fields.lookup "refresh_token" ≠ some (JsVal.other b text)

/-! ## Calls that overlap at an `await` -/

/-- The part of `getNewAccessToken` before its first `await`: the token read into
`tokenToUse` and the state once the refresh request is sent, or no token when the function
returns false at its guard. -/
def getNewAccessTokenStart (s : State) : Option JsVal × State :=
  let s0 := s.emit Event.refresh
  let tokenToUse := s0.refreshToken.or s0.getItem
  if !tokenToUse.truthy then
    (none, s0)
  else
    (some tokenToUse, s0.emit (Event.fetch (refreshRequest tokenToUse)))

/-- The part of `getNewAccessToken` after its `await`: what it does with the answer to its
request, on the state as it is when the answer arrives. -/
def getNewAccessTokenResume (tokenToUse : JsVal) (answer : Except String Response)
    (s : State) : Bool × State :=
  match refreshExchange answer with
  | Except.ok a => (true, { s with accessToken := a, refreshToken := tokenToUse })
  | Except.error _ =>
    (false, { s with accessToken := JsVal.null, refreshToken := JsVal.null,
                     storedRefreshToken := none })

/-- Two calls of `getNewAccessToken` that overlap: the second starts while the first waits
for its answer; then the first receives its answer and ends, then the second. -/
def overlappedRefreshes (s : State) (answerFirst answerSecond : Except String Response) :
    State :=
  match getNewAccessTokenStart s with
  | (none, s0) =>
    match getNewAccessTokenStart s0 with
    | (none, s1) => s1
    | (some second, s1) => (getNewAccessTokenResume second answerSecond s1).2
  | (some first, s0) =>
    match getNewAccessTokenStart s0 with
    | (none, s1) => (getNewAccessTokenResume first answerFirst s1).2
    | (some second, s1) =>
      (getNewAccessTokenResume second answerSecond
        (getNewAccessTokenResume first answerFirst s1).2).2

/-! ## Sample inputs -/

/-- A catalog URL used in the worked examples. -/
def sampleUrl : String := "http://34.133.201.117:5000/api/books"

/-- A response with the given status and parsed JSON body. -/
def jsonResponse (status : Nat) (data : JsonData) : Response :=
  { status := status, text := "", json := Except.ok data }

/-- A network where the identity service issues the access token `A2`, and the catalog
accepts only the bearer `A2` and answers 401 to anything else. -/
def netRenew : Net := fun _ req =>
  if req.url = AUTH_SERVICE_URL ++ "/auth/refresh" then
    Except.ok (jsonResponse 200 (JsonData.obj [("access_token", JsVal.str "A2")]))
  else if req.headers.get "Authorization" = some "Bearer A2" then
    Except.ok (jsonResponse 200 (JsonData.obj []))
  else
    Except.ok (jsonResponse 401 (JsonData.obj []))

/-- A network where the identity service issues `A2` but the catalog answers 401 to
every request. -/
def netAlways401 : Net := fun _ req =>
  if req.url = AUTH_SERVICE_URL ++ "/auth/refresh" then
    Except.ok (jsonResponse 200 (JsonData.obj [("access_token", JsVal.str "A2")]))
  else
    Except.ok (jsonResponse 401 (JsonData.obj []))

/-- A network where the identity service rejects the refresh and the catalog answers 401. -/
def netReject : Net := fun _ req =>
  if req.url = AUTH_SERVICE_URL ++ "/auth/refresh" then
    Except.ok (jsonResponse 401 (JsonData.obj [("error", JsVal.str "expired")]))
  else
    Except.ok (jsonResponse 401 (JsonData.obj []))

/-- A network where every request is answered with status 200 and the JSON body `null`. -/
def netNullBody : Net := fun _ _ => Except.ok (jsonResponse 200 JsonData.null)

/-- A network where every request is answered with status 200 and an empty object. -/
def netOk : Net := fun _ _ => Except.ok (jsonResponse 200 (JsonData.obj []))

/-- A logged-in session: access token `A1`, refresh token `R1` in memory and in storage. -/
def loggedIn : State :=
  { accessToken := JsVal.str "A1", refreshToken := JsVal.str "R1",
    storedRefreshToken := some "R1", trace := [] }

/-- A fresh page load with a stored refresh token `R1` and nothing in memory. -/
def pageLoad : State :=
  { accessToken := JsVal.null, refreshToken := JsVal.null,
    storedRefreshToken := some "R1", trace := [] }

/-- A session with no token at all. -/
def loggedOut : State :=
  { accessToken := JsVal.null, refreshToken := JsVal.null,
    storedRefreshToken := none, trace := [] }

/-- A session that holds an access token `A1` but no refresh token anywhere. -/
def accessOnly : State :=
  { accessToken := JsVal.str "A1", refreshToken := JsVal.null,
    storedRefreshToken := none, trace := [] }

/-- A session as a login leaves it when the identity service sends an empty
`refresh_token`: access token `A1`, and `""` as refresh token in memory and in storage. -/
def emptyRefresh : State :=
  { accessToken := JsVal.str "A1", refreshToken := JsVal.str "",
    storedRefreshToken := some "", trace := [] }

/-- Caller options of a JSON `POST` as the handlers of the page build them. -/
def postOptions : Options :=
  { method := some "POST", headers := some [("Content-Type", "application/json")],
    body := some (Body.text "payload") }

/-- Caller options that already carry an `Authorization` header. -/
def basicAuthOptions : Options :=
  { method := some "GET",
    headers := some [("Authorization", "Basic abc"), ("Accept", "application/xml")] }

/-- A page around a session: panels not yet set, default connection inputs, empty forms. -/
def pageOf (s : State) : Page :=
  { session := s, initializeAppCalls := 0,
    loginPanelDisplay := "", mainContainerDisplay := "", authStatusText := "",
    loginStatusText := "", loginStatusColor := "",
    protocolSelect := "http", hostInput := "34.133.201.117", portInput := "5000",
    basePathInput := "/api",
    insertForm := InsertForm.cleared, insertStatusText := "", insertStatusColor := "",
    deleteIsbns := "", deleteStatusText := "", deleteStatusColor := "" }

/-- A filled insert form. -/
def sampleBook : InsertForm :=
  { insertIsbn := "978-0", insertTitle := " Rayuela ", insertYear := "1963",
    insertPrice := "19.5", insertStock := "3", insertGenre := "Novela",
    insertFormat := "Tapa dura", insertAuthors := "Cortazar" }

/-- The first `message` element of three sample documents, as the XML parser reads them. -/
def sampleFirstMessage (xmlText : String) : Option String :=
  if xmlText = "<response><message>Created</message></response>" then some "Created"
  else if xmlText = "<response><message>Duplicate</message></response>" then some "Duplicate"
  else if xmlText = "<response><message></message></response>" then some ""
  else none

/-- A response with the given status and body text. -/
def xmlResponse (status : Nat) (text : String) : Response :=
  { status := status, text := text, json := Except.error "SyntaxError" }

/-- A network where every request is answered 201 with the message `Created`. -/
def netCreated : Net := fun _ _ =>
  Except.ok (xmlResponse 201 "<response><message>Created</message></response>")

/-- A network where every request is answered 409 with the message `Duplicate`. -/
def netDuplicate : Net := fun _ _ =>
  Except.ok (xmlResponse 409 "<response><message>Duplicate</message></response>")

/-- A network where every request is answered 201 with an empty `message` element. -/
def netEmptyMessage : Net := fun _ _ =>
  Except.ok (xmlResponse 201 "<response><message></message></response>")

/-- A network where every request fails at the transport level. -/
def netDown : Net := fun _ _ => Except.error "Failed to fetch"

/-- A network where the catalog answers 401 to the bearer `A1`, the identity service issues
`A2`, and the request retried with the bearer `A2` fails at the transport level. -/
def netRetryDown : Net := fun _ req =>
  if req.url = AUTH_SERVICE_URL ++ "/auth/refresh" then
    Except.ok (jsonResponse 200 (JsonData.obj [("access_token", JsVal.str "A2")]))
  else if req.headers.get "Authorization" = some "Bearer A2" then
    Except.error "Failed to fetch"
  else
    Except.ok (jsonResponse 401 (JsonData.obj []))

/-- A network where the identity service answers a login with the tokens `A1` and `R1`, a
refresh with `A2`, and the catalog answers 401 to every bearer but `A2`. -/
def netLogin : Net := fun _ req =>
  if req.url = AUTH_SERVICE_URL ++ "/auth/login" then
    Except.ok (jsonResponse 200
      (JsonData.obj [("access_token", JsVal.str "A1"), ("refresh_token", JsVal.str "R1")]))
  else if req.url = AUTH_SERVICE_URL ++ "/auth/refresh" then
    Except.ok (jsonResponse 200 (JsonData.obj [("access_token", JsVal.str "A2")]))
  else if req.headers.get "Authorization" = some "Bearer A2" then
    Except.ok (jsonResponse 200 (JsonData.obj []))
  else
    Except.ok (jsonResponse 401 (JsonData.obj []))

/-- A network where the identity service answers a login with the access token `A1` and the
number `123` as refresh token. -/
def netNumericToken : Net := fun _ _ =>
  Except.ok (jsonResponse 200
    (JsonData.obj [("access_token", JsVal.str "A1"),
      ("refresh_token", JsVal.other true "123")]))

/-- The session that the login of `ana@uni.mx` leaves on a first visit, with the tokens `A1`
and `R1`. -/
def afterLogin : State :=
  (handleLogin netLogin (pageOf loggedOut) "ana@uni.mx" "secreto").session

/-- A network where the identity service rejects a login with status 401 and an error. -/
def netLoginRejected : Net := fun _ _ =>
  Except.ok (jsonResponse 401 (JsonData.obj [("error", JsVal.str "Credenciales inválidas")]))

/-- A logged-in page whose delete input holds the given text. -/
def deletePage (text : String) : Page :=
  { pageOf loggedIn with deleteIsbns := text }

/-- A logged-in page whose insert form is filled. -/
def insertPage : Page :=
  { pageOf loggedIn with insertForm := sampleBook }

/-! ## Lemmas on header objects and on the refresh operation -/

theorem Headers.get_set_same (h : Headers) (key value : String) :
    (h.set key value).get key = some value := by
  induction h with
  | nil => simp [Headers.set, Headers.get]
  | cons p rest ih =>
    obtain ⟨k, v⟩ := p
    by_cases hk : k = key <;> simp [Headers.set, Headers.get, hk, ih]

theorem Headers.get_set_other (h : Headers) (key value other : String) (hne : other ≠ key) :
    (h.set key value).get other = h.get other := by
  induction h with
  | nil => simp [Headers.set, Headers.get, Ne.symm hne]
  | cons p rest ih =>
    obtain ⟨k, v⟩ := p
    by_cases hk : k = key
    · subst hk
      simp [Headers.set, Headers.get, Ne.symm hne]
    · by_cases hk2 : k = other
      · subst hk2
        simp [Headers.set, Headers.get, hk]
      · simp [Headers.set, Headers.get, hk, hk2, ih]

@[simp] theorem State.emit_accessToken (s : State) (e : Event) :
    (s.emit e).accessToken = s.accessToken := rfl

@[simp] theorem State.emit_refreshToken (s : State) (e : Event) :
    (s.emit e).refreshToken = s.refreshToken := rfl

@[simp] theorem State.emit_storedRefreshToken (s : State) (e : Event) :
    (s.emit e).storedRefreshToken = s.storedRefreshToken := rfl

@[simp] theorem State.emit_getItem (s : State) (e : Event) :
    (s.emit e).getItem = s.getItem := rfl

@[simp] theorem State.emit_trace (s : State) (e : Event) :
    (s.emit e).trace = s.trace ++ [e] := rfl

theorem getNewAccessToken_missing (net : Net) (s : State)
    (h : (s.refreshToken.or s.getItem).truthy = false) :
    getNewAccessToken net s = (false, s.emit Event.refresh) := by
  unfold getNewAccessToken
  simp only [State.emit_refreshToken, State.emit_getItem, h, Bool.not_false, if_true]

theorem getNewAccessToken_ok (net : Net) (s : State) (a : JsVal)
    (h : (s.refreshToken.or s.getItem).truthy = true)
    (hx : refreshExchange (net (s.trace ++ [Event.refresh])
      (refreshRequest (s.refreshToken.or s.getItem))) = Except.ok a) :
    getNewAccessToken net s =
      (true, { accessToken := a, refreshToken := s.refreshToken.or s.getItem,
               storedRefreshToken := s.storedRefreshToken,
               trace := s.trace ++ [Event.refresh,
                 Event.fetch (refreshRequest (s.refreshToken.or s.getItem))] }) := by
  unfold getNewAccessToken
  simp only [State.emit_refreshToken, State.emit_getItem, State.emit_trace, h, hx,
    Bool.not_true, Bool.false_eq_true, if_false]
  simp [State.emit]

theorem getNewAccessToken_error (net : Net) (s : State) (e : String)
    (h : (s.refreshToken.or s.getItem).truthy = true)
    (hx : refreshExchange (net (s.trace ++ [Event.refresh])
      (refreshRequest (s.refreshToken.or s.getItem))) = Except.error e) :
    getNewAccessToken net s =
      (false, { accessToken := JsVal.null, refreshToken := JsVal.null,
                storedRefreshToken := none,
                trace := s.trace ++ [Event.refresh,
                  Event.fetch (refreshRequest (s.refreshToken.or s.getItem))] }) := by
  unfold getNewAccessToken
  simp only [State.emit_refreshToken, State.emit_getItem, State.emit_trace, h, hx,
    Bool.not_true, Bool.false_eq_true, if_false]
  simp [State.emit]

theorem refreshExchange_ok_iff (answer : Except String Response) (a : JsVal) :
    refreshExchange answer = Except.ok a ↔
      ∃ response data, answer = Except.ok response ∧ response.json = Except.ok data ∧
        response.ok = true ∧ data.prop "access_token" = Except.ok a := by
  constructor
  · intro h
    cases answer with
    | error e => simp [refreshExchange, bind, Except.bind] at h
    | ok response =>
      cases hj : response.json with
      | error e => simp [refreshExchange, bind, Except.bind, hj] at h
      | ok data =>
        cases hok : response.ok with
        | false =>
          cases hp : data.prop "error" <;>
            simp [refreshExchange, bind, Except.bind, hj, hok, hp, throw, throwThe,
              MonadExceptOf.throw] at h
        | true =>
          refine ⟨response, data, rfl, hj, hok, ?_⟩
          simpa [refreshExchange, bind, Except.bind, hj, hok, pure, Except.pure] using h
  · rintro ⟨response, data, rfl, hj, hok, hp⟩
    simp [refreshExchange, bind, Except.bind, hj, hok, hp, pure, Except.pure]

/-! ## Lemmas on `fetchProtected`, one per path -/

theorem fetchProtected_transport_error (net : Net) (s : State) (url : String)
    (options : Options) (e : String)
    (h1 : net s.trace (firstRequest s url options) = Except.error e) :
    fetchProtected net s url options =
      (Except.error e, s.emit (Event.fetch (firstRequest s url options))) := by
  unfold firstRequest at h1
  unfold fetchProtected
  simp only [h1]
  rfl

theorem fetchProtected_other_status (net : Net) (s : State) (url : String)
    (options : Options) (r1 : Response)
    (h1 : net s.trace (firstRequest s url options) = Except.ok r1)
    (hst : r1.status ≠ 401) :
    fetchProtected net s url options =
      (Except.ok r1, s.emit (Event.fetch (firstRequest s url options))) := by
  unfold firstRequest at h1
  unfold fetchProtected
  simp only [h1, hst, if_false]
  rfl

theorem fetchProtected_refresh_failed (net : Net) (s : State) (url : String)
    (options : Options) (r1 : Response)
    (h1 : net s.trace (firstRequest s url options) = Except.ok r1)
    (hst : r1.status = 401)
    (hfail : (getNewAccessToken net (s.emit (Event.fetch (firstRequest s url options)))).1
      = false) :
    fetchProtected net s url options =
      (Except.ok r1,
        (getNewAccessToken net (s.emit (Event.fetch (firstRequest s url options)))).2) := by
  unfold firstRequest at h1 hfail
  unfold fetchProtected
  simp only [h1, hst, if_true, hfail, Bool.false_eq_true, if_false]
  rfl

theorem fetchProtected_refreshed (net : Net) (s : State) (url : String)
    (options : Options) (r1 : Response)
    (h1 : net s.trace (firstRequest s url options) = Except.ok r1)
    (hst : r1.status = 401)
    (hok : (getNewAccessToken net (s.emit (Event.fetch (firstRequest s url options)))).1
      = true) :
    fetchProtected net s url options =
      (net (getNewAccessToken net (s.emit (Event.fetch (firstRequest s url options)))).2.trace
          (mkRequest url options ((firstHeaders s options).set "Authorization"
            ("Bearer " ++ (getNewAccessToken net
              (s.emit (Event.fetch (firstRequest s url options)))).2.accessToken.toStr))),
        (getNewAccessToken net (s.emit (Event.fetch (firstRequest s url options)))).2.emit
          (Event.fetch (mkRequest url options ((firstHeaders s options).set "Authorization"
            ("Bearer " ++ (getNewAccessToken net
              (s.emit (Event.fetch (firstRequest s url options)))).2.accessToken.toStr))))) := by
  unfold firstRequest at h1 hok
  unfold fetchProtected
  simp only [h1, hst, if_true, hok]
  rfl

theorem firstHeaders_get_other (s : State) (options : Options) (key : String)
    (hne : key ≠ "Authorization") :
    (firstHeaders s options).get key = (options.headers.getD []).get key := by
  unfold firstHeaders
  by_cases h : s.accessToken.truthy = true
  · simp only [h, if_true]
    exact Headers.get_set_other _ _ _ _ hne
  · simp only [h, if_false, Bool.false_eq_true]

/-- Every run of `getNewAccessToken` extends the trace by the entry event and at most the
refresh exchange. -/
theorem getNewAccessToken_trace (net : Net) (s : State) :
    (getNewAccessToken net s).2.trace = s.trace ++ [Event.refresh] ∨
    (getNewAccessToken net s).2.trace = s.trace ++ [Event.refresh,
      Event.fetch (refreshRequest (s.refreshToken.or s.getItem))] := by
  cases h : (s.refreshToken.or s.getItem).truthy with
  | false =>
    left
    rw [getNewAccessToken_missing net s h]
    rfl
  | true =>
    right
    cases hx : refreshExchange (net (s.trace ++ [Event.refresh])
        (refreshRequest (s.refreshToken.or s.getItem))) with
    | ok a => rw [getNewAccessToken_ok net s a h hx]
    | error e => rw [getNewAccessToken_error net s e h hx]

theorem fetches_append (xs ys : List Event) :
    fetches (xs ++ ys) = fetches xs ++ fetches ys := by
  induction xs with
  | nil => rfl
  | cons e rest ih => cases e <;> simp [fetches, ih]

theorem refreshCount_append (xs ys : List Event) :
    refreshCount (xs ++ ys) = refreshCount xs + refreshCount ys := by
  induction xs with
  | nil => simp [refreshCount]
  | cons e rest ih =>
    cases e with
    | fetch req => simp [refreshCount, ih]
    | refresh =>
      show refreshCount (rest ++ ys) + 1 = refreshCount rest + 1 + refreshCount ys
      omega

/-! ## Lemmas on `trim` and `split` -/

theorem splitChars_ne_nil (sep : Char) (l : List Char) : splitChars sep l ≠ [] := by
  cases l with
  | nil => simp [splitChars]
  | cons c cs =>
    unfold splitChars
    split
    · simp
    · split <;> simp

theorem isJsWhitespace_ne_comma (c : Char) (h : isJsWhitespace c = true) : c ≠ ',' := by
  intro hc
  subst hc
  revert h
  decide

theorem trimChars_cons_whitespace (c : Char) (l : List Char)
    (h : isJsWhitespace c = true) : trimChars (c :: l) = trimChars l := by
  simp [trimChars, List.dropWhile, h]

theorem trimChars_concat_whitespace (c : Char) (l : List Char)
    (h : isJsWhitespace c = true) : trimChars (l ++ [c]) = trimChars l := by
  induction l with
  | nil => simp [trimChars, List.dropWhile, h]
  | cons x rest ih =>
    by_cases hx : isJsWhitespace x = true
    · rw [List.cons_append, trimChars_cons_whitespace x _ hx,
        trimChars_cons_whitespace x _ hx, ih]
    · have h1 : (x :: rest ++ [c]).dropWhile isJsWhitespace = (x :: rest) ++ [c] := by
        simp [List.dropWhile, hx]
      have h2 : (x :: rest).dropWhile isJsWhitespace = x :: rest := by
        simp [List.dropWhile, hx]
      unfold trimChars
      rw [h1, h2, List.rdropWhile_concat_pos _ _ _ h]

/-- The pieces of a text followed by one more character that is not the separator: the
last piece gains that character. -/
theorem splitChars_concat (sep c : Char) (hc : c ≠ sep) (l : List Char) :
    ∃ init last, splitChars sep l = init ++ [last] ∧
      splitChars sep (l ++ [c]) = init ++ [last ++ [c]] := by
  induction l with
  | nil => exact ⟨[], [], by simp [splitChars], by simp [splitChars, hc]⟩
  | cons x rest ih =>
    obtain ⟨init, last, h1, h2⟩ := ih
    by_cases hx : x = sep
    · refine ⟨[] :: init, last, ?_, ?_⟩
      · simp [splitChars, hx, h1]
      · simp [splitChars, hx, h2]
    · cases init with
      | nil =>
        refine ⟨[], x :: last, ?_, ?_⟩
        · simp [splitChars, hx, h1]
        · simp [splitChars, hx, h2]
      | cons piece pieces =>
        refine ⟨(x :: piece) :: pieces, last, ?_, ?_⟩
        · simp [splitChars, hx, h1]
        · simp [splitChars, hx, h2]

theorem map_trimChars_splitChars_cons (c : Char) (l : List Char)
    (h : isJsWhitespace c = true) :
    (splitChars ',' (c :: l)).map trimChars = (splitChars ',' l).map trimChars := by
  have hc := isJsWhitespace_ne_comma c h
  cases hs : splitChars ',' l with
  | nil => exact absurd hs (splitChars_ne_nil ',' l)
  | cons piece pieces =>
    simp [splitChars, hc, hs, trimChars_cons_whitespace c piece h]

theorem map_trimChars_splitChars_concat (c : Char) (l : List Char)
    (h : isJsWhitespace c = true) :
    (splitChars ',' (l ++ [c])).map trimChars = (splitChars ',' l).map trimChars := by
  obtain ⟨init, last, h1, h2⟩ := splitChars_concat ',' c (isJsWhitespace_ne_comma c h) l
  rw [h1, h2]
  simp [trimChars_concat_whitespace c last h]

theorem map_trimChars_splitChars_dropWhile (l : List Char) :
    (splitChars ',' (l.dropWhile isJsWhitespace)).map trimChars
      = (splitChars ',' l).map trimChars := by
  induction l with
  | nil => rfl
  | cons c rest ih =>
    by_cases h : isJsWhitespace c = true
    · rw [map_trimChars_splitChars_cons c rest h, ← ih]
      simp [List.dropWhile, h]
    · simp [List.dropWhile, h]

theorem map_trimChars_splitChars_rdropWhile (l : List Char) :
    (splitChars ',' (l.rdropWhile isJsWhitespace)).map trimChars
      = (splitChars ',' l).map trimChars := by
  induction l using List.reverseRecOn with
  | nil => simp
  | append_singleton rest c ih =>
    by_cases h : isJsWhitespace c = true
    · rw [List.rdropWhile_concat_pos _ _ _ h, ih, map_trimChars_splitChars_concat c rest h]
    · rw [List.rdropWhile_concat_neg _ _ _ h]

/-- Trimming the whole text before splitting it at the commas does not change the trimmed
pieces. -/
theorem map_trimChars_splitChars_trimChars (l : List Char) :
    (splitChars ',' (trimChars l)).map trimChars = (splitChars ',' l).map trimChars := by
  have h : trimChars l = (l.dropWhile isJsWhitespace).rdropWhile isJsWhitespace := rfl
  rw [h, map_trimChars_splitChars_rdropWhile, map_trimChars_splitChars_dropWhile]

/-- The array `isbns` of `handleDelete` holds the trimmed non-empty comma-separated pieces of
the text, in their order. -/
theorem deleteIsbnList_eq (text : String) :
    deleteIsbnList text
      = ((jsSplit text ',').map jsTrim).filter (fun piece => piece ≠ "") := by
  have h2 : ∀ L : List (List Char),
      (L.map String.mk).map jsTrim = (L.map trimChars).map String.mk := by
    intro L
    simp [List.map_map, Function.comp_def, jsTrim]
  have h : (jsSplit (jsTrim text) ',').map jsTrim = (jsSplit text ',').map jsTrim := by
    have h1 := map_trimChars_splitChars_trimChars text.data
    have h3 : jsSplit (jsTrim text) ','
        = (splitChars ',' (trimChars text.data)).map String.mk := rfl
    have h4 : jsSplit text ',' = (splitChars ',' text.data).map String.mk := rfl
    rw [h3, h4, h2, h2, h1]
  unfold deleteIsbnList
  rw [h]

/-! ## Lemmas on `checkLoginState` and `handleLogin` -/

theorem checkLoginState_no_stored (net : Net) (p : Page)
    (hno : p.session.getItem.truthy = false) :
    checkLoginState net p
      = { p with loginPanelDisplay := "block", mainContainerDisplay := "none" } := by
  unfold checkLoginState
  simp only [hno, Bool.false_eq_true, if_false]

theorem checkLoginState_refreshed (net : Net) (p : Page)
    (hstored : p.session.getItem.truthy = true)
    (hok : (getNewAccessToken net p.session).1 = true) :
    checkLoginState net p
      = { p with session := (getNewAccessToken net p.session).2
                 loginPanelDisplay := "none"
                 mainContainerDisplay := "flex"
                 authStatusText := "Autenticado (sesión recuperada)"
                 initializeAppCalls := p.initializeAppCalls + 1 } := by
  unfold checkLoginState
  simp only [hstored, if_true, hok]

theorem checkLoginState_failed (net : Net) (p : Page)
    (hstored : p.session.getItem.truthy = true)
    (hfail : (getNewAccessToken net p.session).1 = false) :
    checkLoginState net p
      = { p with session := (getNewAccessToken net p.session).2
                 loginPanelDisplay := "block"
                 mainContainerDisplay := "none"
                 authStatusText := ""
                 loginStatusText := "Tu sesión expiró. Por favor, inicia sesión de nuevo."
                 loginStatusColor := "red" } := by
  unfold checkLoginState
  simp only [hstored, if_true, hfail, Bool.false_eq_true, if_false]

theorem truthy_or_of_getItem (s : State) (h : s.getItem.truthy = true) :
    (s.refreshToken.or s.getItem).truthy = true := by
  unfold JsVal.or
  split
  · assumption
  · exact h

theorem handleLogin_empty (net : Net) (p : Page) (email password : String)
    (h : email = "" ∨ password = "") :
    handleLogin net p email password
      = { p with loginStatusText := "Email y contraseña requeridos."
                 loginStatusColor := "red" } := by
  unfold handleLogin
  simp only [h, if_true]

theorem handleLogin_ok (net : Net) (p : Page) (email password : String) (a r : JsVal)
    (hemail : email ≠ "") (hpassword : password ≠ "")
    (hx : loginExchange (net p.session.trace (loginRequest email password))
      = Except.ok (a, r)) :
    handleLogin net p email password
      = { p with session :=
                   { accessToken := a, refreshToken := r, storedRefreshToken := some r.toStr,
                     trace := p.session.trace ++ [Event.fetch (loginRequest email password)] }
                 loginStatusText := "Iniciando sesión..."
                 loginStatusColor := "blue"
                 loginPanelDisplay := "none"
                 mainContainerDisplay := "flex"
                 authStatusText := "Autenticado como: " ++ email
                 initializeAppCalls := p.initializeAppCalls + 1 } := by
  unfold handleLogin
  simp only [hemail, hpassword, or_self, if_false, hx]
  rfl

theorem handleLogin_error (net : Net) (p : Page) (email password : String) (message : String)
    (hemail : email ≠ "") (hpassword : password ≠ "")
    (hx : loginExchange (net p.session.trace (loginRequest email password))
      = Except.error message) :
    handleLogin net p email password
      = { p with session := p.session.emit (Event.fetch (loginRequest email password))
                 loginStatusText := message
                 loginStatusColor := "red" } := by
  unfold handleLogin
  simp only [hemail, hpassword, or_self, if_false, hx]

theorem loginExchange_object (response : Response) (fields : List (String × JsVal))
    (hok : response.ok = true) (hjson : response.json = Except.ok (JsonData.obj fields)) :
    loginExchange (Except.ok response)
      = Except.ok ((fields.lookup "access_token").getD JsVal.undefined,
          (fields.lookup "refresh_token").getD JsVal.undefined) := by
  simp [loginExchange, bind, Except.bind, hjson, hok, JsonData.prop, pure, Except.pure]

theorem loginExchange_transport_error (e : String) :
    loginExchange (Except.error e) = Except.error e := rfl

theorem loginExchange_unreadable (response : Response) (e : String)
    (hjson : response.json = Except.error e) :
    loginExchange (Except.ok response) = Except.error e := by
  simp [loginExchange, bind, Except.bind, hjson]

theorem loginExchange_not_ok (response : Response) (hok : response.ok = false) :
    ∃ message, loginExchange (Except.ok response) = Except.error message := by
  cases hjson : response.json with
  | error e => exact ⟨e, loginExchange_unreadable response e hjson⟩
  | ok data =>
    cases hp : data.prop "error" with
    | error e =>
      exact ⟨e, by simp [loginExchange, bind, Except.bind, hjson, hok, hp]⟩
    | ok v =>
      exact ⟨if v.truthy then v.toStr else "Error al iniciar sesión", by
        simp [loginExchange, bind, Except.bind, hjson, hok, hp, throw, throwThe,
          MonadExceptOf.throw]⟩

/-! ## The mirror invariant, step by step -/

theorem Mirrored_emit (s : State) (e : Event) (h : Mirrored s) : Mirrored (s.emit e) := h

theorem Mirrored_getNewAccessToken (net : Net) (s : State) (h : Mirrored s) :
    Mirrored (getNewAccessToken net s).2 := by
  cases ht : (s.refreshToken.or s.getItem).truthy with
  | false =>
    rw [getNewAccessToken_missing net s ht]
    exact h
  | true =>
    cases hx : refreshExchange (net (s.trace ++ [Event.refresh])
        (refreshRequest (s.refreshToken.or s.getItem))) with
    | error e =>
      rw [getNewAccessToken_error net s e ht hx]
      intro hheld
      exact absurd hheld (by simp [JsVal.truthy])
    | ok a =>
      rw [getNewAccessToken_ok net s a ht hx]
      intro _
      show s.getItem = s.refreshToken.or s.getItem
      by_cases hm : s.refreshToken.truthy = true
      · simp only [JsVal.or, hm, if_true]
        exact h hm
      · simp [JsVal.or, hm]

theorem Mirrored_fetchProtected (net : Net) (s : State) (url : String) (options : Options)
    (h : Mirrored s) : Mirrored (fetchProtected net s url options).2 := by
  have h1 : Mirrored (s.emit (Event.fetch (firstRequest s url options))) := h
  have h2 := Mirrored_getNewAccessToken net _ h1
  cases hn : net s.trace (firstRequest s url options) with
  | error e =>
    rw [fetchProtected_transport_error net s url options e hn]
    exact h1
  | ok r1 =>
    by_cases hst : r1.status = 401
    · cases hr : (getNewAccessToken net
          (s.emit (Event.fetch (firstRequest s url options)))).1 with
      | false =>
        rw [fetchProtected_refresh_failed net s url options r1 hn hst hr]
        exact h2
      | true =>
        rw [fetchProtected_refreshed net s url options r1 hn hst hr]
        exact h2
    · rw [fetchProtected_other_status net s url options r1 hn hst]
      exact h1

theorem Mirrored_checkLoginState (net : Net) (p : Page) (h : Mirrored p.session) :
    Mirrored (checkLoginState net p).session := by
  cases hs : p.session.getItem.truthy with
  | false =>
    rw [checkLoginState_no_stored net p hs]
    exact h
  | true =>
    cases hr : (getNewAccessToken net p.session).1 with
    | false =>
      rw [checkLoginState_failed net p hs hr]
      exact Mirrored_getNewAccessToken net p.session h
    | true =>
      rw [checkLoginState_refreshed net p hs hr]
      exact Mirrored_getNewAccessToken net p.session h

theorem loginExchange_ok_fields (answer : Except String Response) (a r : JsVal)
    (h : loginExchange answer = Except.ok (a, r)) :
    ∃ response fields, answer = Except.ok response ∧
      response.json = Except.ok (JsonData.obj fields) ∧
      r = (fields.lookup "refresh_token").getD JsVal.undefined := by
  cases answer with
  | error e => simp [loginExchange, bind, Except.bind] at h
  | ok response =>
    cases hj : response.json with
    | error e => simp [loginExchange, bind, Except.bind, hj] at h
    | ok data =>
      cases hok : response.ok with
      | false =>
        obtain ⟨message, hm⟩ := loginExchange_not_ok response hok
        rw [hm] at h
        cases h
      | true =>
        cases data with
        | null =>
          simp [loginExchange, bind, Except.bind, hj, hok, JsonData.prop, pure,
            Except.pure] at h
        | obj fields =>
          refine ⟨response, fields, rfl, hj, ?_⟩
          simp [loginExchange, bind, Except.bind, hj, hok, JsonData.prop, pure,
            Except.pure] at h
          exact h.2.symm

theorem Mirrored_handleLogin (net : Net) (hstr : StringRefreshTokens net) (p : Page)
    (email password : String)
    (h : Mirrored p.session) : Mirrored (handleLogin net p email password).session := by
  by_cases he : email = "" ∨ password = ""
  · rw [handleLogin_empty net p email password he]
    exact h
  · have hemail : email ≠ "" := fun hc => he (Or.inl hc)
    have hpassword : password ≠ "" := fun hc => he (Or.inr hc)
    cases hx : loginExchange (net p.session.trace (loginRequest email password)) with
    | error message =>
      rw [handleLogin_error net p email password message hemail hpassword hx]
      exact h
    | ok pair =>
      obtain ⟨a, r⟩ := pair
      obtain ⟨response, fields, hnet, hjson, hr⟩ := loginExchange_ok_fields _ a r hx
      rw [handleLogin_ok net p email password a r hemail hpassword hx]
      intro hheld
      cases r with
      | undefined => exact absurd hheld (by simp [JsVal.truthy])
      | null => exact absurd hheld (by simp [JsVal.truthy])
      | str t => rfl
      | other b text =>
        exfalso
        apply hstr p.session.trace (loginRequest email password) response fields b text
          hnet hjson
        cases hl : fields.lookup "refresh_token" with
        | none =>
          rw [hl] at hr
          cases hr
        | some v =>
          rw [hl] at hr
          simp only [Option.getD_some] at hr
          rw [hr]

theorem Mirrored_run (net : Net) (hstr : StringRefreshTokens net) (p : Page)
    (action : Action) (h : Mirrored p.session) :
    Mirrored (action.run net p).session := by
  cases action with
  | login email password => exact Mirrored_handleLogin net hstr p email password h
  | refresh => exact Mirrored_getNewAccessToken net p.session h
  | request url options => exact Mirrored_fetchProtected net p.session url options h
  | boot => exact Mirrored_checkLoginState net p h

theorem Mirrored_runActions (net : Net) (hstr : StringRefreshTokens net)
    (actions : List Action) (p : Page)
    (h : Mirrored p.session) : Mirrored (runActions net p actions).session := by
  induction actions generalizing p with
  | nil => exact h
  | cons action rest ih => exact ih (action.run net p) (Mirrored_run net hstr p action h)

/-- The function `getNewAccessToken` is its part before the `await` followed by its part
after it, when nothing runs in between. -/
theorem getNewAccessToken_eq_start_resume (net : Net) (s : State) :
    getNewAccessToken net s =
      match getNewAccessTokenStart s with
      | (none, s0) => (false, s0)
      | (some tokenToUse, s1) =>
        getNewAccessTokenResume tokenToUse
          (net (s.trace ++ [Event.refresh]) (refreshRequest tokenToUse)) s1 := by
  unfold getNewAccessToken getNewAccessTokenStart getNewAccessTokenResume
  cases h : (s.refreshToken.or s.getItem).truthy with
  | false => simp [h]
  | true =>
    simp only [State.emit_refreshToken, State.emit_getItem, State.emit_trace, h,
      Bool.not_true, Bool.false_eq_true, if_false]

theorem netLogin_stringRefreshTokens : StringRefreshTokens netLogin := by
  intro trace req response fields b text hnet hjson hc
  unfold netLogin at hnet
  split at hnet
  · cases hnet
    cases hjson
    simp [List.lookup] at hc
  · split at hnet
    · cases hnet
      cases hjson
      simp [List.lookup] at hc
    · split at hnet
      · cases hnet
        cases hjson
        simp [List.lookup] at hc
      · cases hnet
        cases hjson
        simp [List.lookup] at hc

/-- The events of a call whose first answer is 401 and whose refresh succeeds. -/
theorem fetchProtected_refreshed_events_aux (net : Net) (s : State) (url : String)
    (options : Options) (r1 : Response)
    (h1 : net s.trace (firstRequest s url options) = Except.ok r1)
    (hst : r1.status = 401)
    (hok : (getNewAccessToken net (s.emit (Event.fetch (firstRequest s url options)))).1
      = true) :
    ∃ req2,
      (fetchProtected net s url options).2.trace
        = s.trace ++ [Event.fetch (firstRequest s url options), Event.refresh,
            Event.fetch (refreshRequest (s.refreshToken.or s.getItem)), Event.fetch req2] ∧
      req2.url = url ∧
      req2 = mkRequest url options ((firstHeaders s options).set "Authorization"
        ("Bearer " ++ (getNewAccessToken net
          (s.emit (Event.fetch (firstRequest s url options)))).2.accessToken.toStr)) ∧
      (fetchProtected net s url options).1
        = net (getNewAccessToken net
            (s.emit (Event.fetch (firstRequest s url options)))).2.trace req2 ∧
      (getNewAccessToken net (s.emit (Event.fetch (firstRequest s url options)))).2.trace
        = s.trace ++ [Event.fetch (firstRequest s url options), Event.refresh,
            Event.fetch (refreshRequest (s.refreshToken.or s.getItem))] := by
  have htr : (getNewAccessToken net
      (s.emit (Event.fetch (firstRequest s url options)))).2.trace
      = s.trace ++ [Event.fetch (firstRequest s url options), Event.refresh,
          Event.fetch (refreshRequest (s.refreshToken.or s.getItem))] := by
    rcases getNewAccessToken_trace net
      (s.emit (Event.fetch (firstRequest s url options))) with h | h
    · exfalso
      cases ht : ((s.emit (Event.fetch (firstRequest s url options))).refreshToken.or
          (s.emit (Event.fetch (firstRequest s url options))).getItem).truthy with
      | false =>
        rw [getNewAccessToken_missing net _ ht] at hok
        exact absurd hok (by simp)
      | true =>
        cases hx : refreshExchange (net
            ((s.emit (Event.fetch (firstRequest s url options))).trace ++ [Event.refresh])
            (refreshRequest
              ((s.emit (Event.fetch (firstRequest s url options))).refreshToken.or
                (s.emit (Event.fetch (firstRequest s url options))).getItem))) with
        | ok a =>
          rw [getNewAccessToken_ok net _ a ht hx] at h
          simp at h
        | error e =>
          rw [getNewAccessToken_error net _ e ht hx] at hok
          exact absurd hok (by simp)
    · rw [h]
      simp
  rw [fetchProtected_refreshed net s url options r1 h1 hst hok]
  refine ⟨_, ?_, rfl, rfl, rfl, htr⟩
  simp [htr]

/-! ## Lemmas on the form handlers -/

/-- The trace after `fetchProtected` starts with its first request. -/
theorem fetchProtected_trace_first (net : Net) (s : State) (url : String)
    (options : Options) :
    ∃ rest, (fetchProtected net s url options).2.trace
      = s.trace ++ Event.fetch (firstRequest s url options) :: rest := by
  cases h1 : net s.trace (firstRequest s url options) with
  | error e =>
    rw [fetchProtected_transport_error net s url options e h1]
    exact ⟨[], rfl⟩
  | ok r1 =>
    by_cases hst : r1.status = 401
    · cases hr : (getNewAccessToken net
          (s.emit (Event.fetch (firstRequest s url options)))).1 with
      | false =>
        rw [fetchProtected_refresh_failed net s url options r1 h1 hst hr]
        rcases getNewAccessToken_trace net
          (s.emit (Event.fetch (firstRequest s url options))) with h | h
        · exact ⟨_, by simp [h]; rfl⟩
        · exact ⟨_, by simp [h]; rfl⟩
      | true =>
        rw [fetchProtected_refreshed net s url options r1 h1 hst hr]
        rcases getNewAccessToken_trace net
          (s.emit (Event.fetch (firstRequest s url options))) with h | h
        · exact ⟨_, by simp [h]; rfl⟩
        · exact ⟨_, by simp [h]; rfl⟩
    · rw [fetchProtected_other_status net s url options r1 h1 hst]
      exact ⟨[], rfl⟩

theorem handleDelete_empty (net : Net) (firstMessage : String → Option String) (p : Page)
    (h : deleteIsbnList p.deleteIsbns = []) :
    handleDelete net firstMessage p
      = { p with deleteStatusText := "Error: Introduce al menos un ISBN."
                 deleteStatusColor := "red" } := by
  unfold handleDelete
  simp only [h, List.length_nil, if_true]

theorem handleDelete_trace (net : Net) (firstMessage : String → Option String) (p : Page)
    (h : deleteIsbnList p.deleteIsbns ≠ []) :
    ∃ rest, (handleDelete net firstMessage p).session.trace
      = p.session.trace ++ Event.fetch (firstRequest p.session
          (getRootApiUrl p ++ "/books/delete")
          (deleteOptions (deleteIsbnList p.deleteIsbns))) :: rest := by
  have hlen : ¬ (deleteIsbnList p.deleteIsbns).length = 0 := by
    simpa [List.length_eq_zero] using h
  obtain ⟨rest, hrest⟩ := fetchProtected_trace_first net p.session
    (getRootApiUrl p ++ "/books/delete") (deleteOptions (deleteIsbnList p.deleteIsbns))
  refine ⟨rest, ?_⟩
  unfold handleDelete
  simp only [hlen, if_false]
  split <;> exact hrest

theorem Reporte6.handleDelete_plain_empty (net : Net) (firstMessage : String → Option String)
    (p : Page) (h : deleteIsbnList p.deleteIsbns = []) :
    Reporte6.handleDelete net firstMessage p
      = { p with deleteStatusText := "Error: Introduce al menos un ISBN."
                 deleteStatusColor := "red" } := by
  unfold Reporte6.handleDelete
  simp only [h, List.length_nil, if_true]

theorem Reporte6.handleDelete_plain_trace (net : Net) (firstMessage : String → Option String)
    (p : Page) (h : deleteIsbnList p.deleteIsbns ≠ []) :
    (Reporte6.handleDelete net firstMessage p).session.trace
      = p.session.trace ++ [Event.fetch (mkRequest (getRootApiUrl p ++ "/books/delete")
          (deleteOptions (deleteIsbnList p.deleteIsbns))
          [("Content-Type", "application/json")])] := by
  have hlen : ¬ (deleteIsbnList p.deleteIsbns).length = 0 := by
    simpa [List.length_eq_zero] using h
  unfold Reporte6.handleDelete
  simp only [hlen, if_false]
  split <;> rfl

theorem deleteIsbnList_eq_nil_iff (text : String) :
    deleteIsbnList text = [] ↔ ∀ piece ∈ jsSplit text ',', jsTrim piece = "" := by
  rw [deleteIsbnList_eq]
  simp [List.filter_eq_nil_iff]

theorem handleInsert_answered (net : Net) (firstMessage : String → Option String) (p : Page)
    (response : Response)
    (hfields : ∀ value ∈ p.insertForm.requiredFields, jsTrim value ≠ "")
    (hres : (fetchProtected net p.session (getRootApiUrl p ++ "/books/insert")
      (insertOptions p.insertForm)).1 = Except.ok response) :
    (handleInsert net firstMessage p).insertStatusText
      = (showOperationStatus firstMessage response).1 ∧
    (handleInsert net firstMessage p).insertForm
      = (if response.ok then InsertForm.cleared else p.insertForm) ∧
    (handleInsert net firstMessage p).initializeAppCalls
      = (if response.ok then p.initializeAppCalls + 1 else p.initializeAppCalls) := by
  have hany : p.insertForm.requiredFields.any (fun value => jsTrim value = "") = false := by
    rw [List.any_eq_false]
    intro value hv
    simpa using hfields value hv
  unfold handleInsert
  simp only [hany, Bool.false_eq_true, if_false, hres]
  cases response.ok <;> simp

/-! ## The claims -/

/-- C1: when Session State holds an access token `t`, the first request that
`fetchProtected` issues goes to the given URL with the caller's method and body, carries
`Authorization` equal to `Bearer t` whatever the caller put under that key, and every other
header is the caller's. -/
theorem fetchProtected_first_request_bearer (net : Net) (s : State) (url : String)
    (options : Options) (t : String)
    (ht : s.accessToken = JsVal.str t) (hheld : t ≠ "") :
    ∃ req rest,
      (fetchProtected net s url options).2.trace = s.trace ++ Event.fetch req :: rest ∧
      req.url = url ∧ req.method = options.method ∧ req.body = options.body ∧
      req.headers.get "Authorization" = some ("Bearer " ++ t) ∧
      ∀ key, key ≠ "Authorization" →
        req.headers.get key = (options.headers.getD []).get key := by
  have htr : s.accessToken.truthy = true := by simp [ht, JsVal.truthy, hheld]
  have hauth : (firstHeaders s options).get "Authorization" = some ("Bearer " ++ t) := by
    unfold firstHeaders
    rw [if_pos htr, ht]
    exact Headers.get_set_same _ _ _
  have hrest : ∃ rest, (fetchProtected net s url options).2.trace
      = s.trace ++ Event.fetch (firstRequest s url options) :: rest := by
    cases h1 : net s.trace (firstRequest s url options) with
    | error e =>
      rw [fetchProtected_transport_error net s url options e h1]
      exact ⟨[], rfl⟩
    | ok r1 =>
      by_cases hst : r1.status = 401
      · cases hr : (getNewAccessToken net
            (s.emit (Event.fetch (firstRequest s url options)))).1 with
        | false =>
          rw [fetchProtected_refresh_failed net s url options r1 h1 hst hr]
          rcases getNewAccessToken_trace net
            (s.emit (Event.fetch (firstRequest s url options))) with h | h
          · exact ⟨[Event.refresh], by simp [h]⟩
          · exact ⟨_, by simp [h]; rfl⟩
        | true =>
          rw [fetchProtected_refreshed net s url options r1 h1 hst hr]
          rcases getNewAccessToken_trace net
            (s.emit (Event.fetch (firstRequest s url options))) with h | h
          · exact ⟨_, by simp [h]; rfl⟩
          · exact ⟨_, by simp [h]; rfl⟩
      · rw [fetchProtected_other_status net s url options r1 h1 hst]
        exact ⟨[], rfl⟩
  obtain ⟨rest, hrest⟩ := hrest
  exact ⟨firstRequest s url options, rest, hrest, rfl, rfl, rfl, hauth,
    fun key hne => firstHeaders_get_other s options key hne⟩

/-- C1 at a concrete input: a logged-in session and a caller that supplied its own
`Authorization` header. -/
theorem fetchProtected_first_request_bearer_witness :
    loggedIn.accessToken = JsVal.str "A1" ∧ "A1" ≠ "" ∧
    ∃ req rest,
      (fetchProtected netRenew loggedIn sampleUrl basicAuthOptions).2.trace
        = loggedIn.trace ++ Event.fetch req :: rest ∧
      req.url = sampleUrl ∧ req.method = basicAuthOptions.method ∧
      req.body = basicAuthOptions.body ∧
      req.headers.get "Authorization" = some ("Bearer " ++ "A1") ∧
      ∀ key, key ≠ "Authorization" →
        req.headers.get key = (basicAuthOptions.headers.getD []).get key :=
  ⟨rfl, by decide,
    fetchProtected_first_request_bearer netRenew loggedIn sampleUrl basicAuthOptions "A1" rfl
      (by decide)⟩

/-- C2: when the first response has status 401 and `getNewAccessToken` fails,
`fetchProtected` resolves to that first response itself, leaves the state that the refresh
operation left, and after its first request the only events are the entry into the refresh
operation and at most the refresh exchange: no second request to the target. -/
theorem fetchProtected_refresh_failed_returns_original (net : Net) (s : State) (url : String)
    (options : Options) (r1 : Response)
    (h1 : net s.trace (firstRequest s url options) = Except.ok r1)
    (hst : r1.status = 401)
    (hfail : (getNewAccessToken net (s.emit (Event.fetch (firstRequest s url options)))).1
      = false) :
    (fetchProtected net s url options).1 = Except.ok r1 ∧
    (fetchProtected net s url options).2
      = (getNewAccessToken net (s.emit (Event.fetch (firstRequest s url options)))).2 ∧
    ((fetchProtected net s url options).2.trace
        = s.trace ++ [Event.fetch (firstRequest s url options), Event.refresh] ∨
      (fetchProtected net s url options).2.trace
        = s.trace ++ [Event.fetch (firstRequest s url options), Event.refresh,
            Event.fetch (refreshRequest (s.refreshToken.or s.getItem))]) := by
  rw [fetchProtected_refresh_failed net s url options r1 h1 hst hfail]
  refine ⟨rfl, rfl, ?_⟩
  rcases getNewAccessToken_trace net (s.emit (Event.fetch (firstRequest s url options)))
    with h | h
  · left
    simp [h]
  · right
    simp [h]

/-- C2 at a concrete input: the catalog answers 401 and the identity service rejects the
refresh. -/
theorem fetchProtected_refresh_failed_returns_original_witness :
    netReject loggedIn.trace (firstRequest loggedIn sampleUrl postOptions)
      = Except.ok (jsonResponse 401 (JsonData.obj [])) ∧
    (jsonResponse 401 (JsonData.obj [])).status = 401 ∧
    (getNewAccessToken netReject
      (loggedIn.emit (Event.fetch (firstRequest loggedIn sampleUrl postOptions)))).1 = false ∧
    (fetchProtected netReject loggedIn sampleUrl postOptions).1
      = Except.ok (jsonResponse 401 (JsonData.obj [])) ∧
    (fetchProtected netReject loggedIn sampleUrl postOptions).2
      = (getNewAccessToken netReject
          (loggedIn.emit (Event.fetch (firstRequest loggedIn sampleUrl postOptions)))).2 ∧
    ((fetchProtected netReject loggedIn sampleUrl postOptions).2.trace
        = loggedIn.trace ++ [Event.fetch (firstRequest loggedIn sampleUrl postOptions),
            Event.refresh] ∨
      (fetchProtected netReject loggedIn sampleUrl postOptions).2.trace
        = loggedIn.trace ++ [Event.fetch (firstRequest loggedIn sampleUrl postOptions),
            Event.refresh,
            Event.fetch (refreshRequest (loggedIn.refreshToken.or loggedIn.getItem))]) :=
  ⟨rfl, rfl, by decide,
    fetchProtected_refresh_failed_returns_original netReject loggedIn sampleUrl postOptions
      (jsonResponse 401 (JsonData.obj [])) rfl rfl (by decide)⟩

/-- C3: when the first response has status 401 and the refresh succeeds leaving the access
token `a`, `fetchProtected` issues, after the refresh, one more request with the same URL,
method and body, with the same headers as the first request except `Authorization`, which is
`Bearer a`; what it resolves to is exactly the answer to that second request, whatever its
status (a second 401 included). -/
theorem fetchProtected_retry_after_refresh (net : Net) (s : State) (url : String)
    (options : Options) (r1 : Response) (a : JsVal)
    (h1 : net s.trace (firstRequest s url options) = Except.ok r1)
    (hst : r1.status = 401)
    (hok : (getNewAccessToken net (s.emit (Event.fetch (firstRequest s url options)))).1
      = true)
    (ha : (getNewAccessToken net
      (s.emit (Event.fetch (firstRequest s url options)))).2.accessToken = a) :
    ∃ req2,
      (fetchProtected net s url options).2.trace
        = (getNewAccessToken net
            (s.emit (Event.fetch (firstRequest s url options)))).2.trace
          ++ [Event.fetch req2] ∧
      req2.url = (firstRequest s url options).url ∧
      req2.method = (firstRequest s url options).method ∧
      req2.body = (firstRequest s url options).body ∧
      req2.headers.get "Authorization" = some ("Bearer " ++ a.toStr) ∧
      (∀ key, key ≠ "Authorization" →
        req2.headers.get key = (firstRequest s url options).headers.get key) ∧
      (fetchProtected net s url options).1
        = net (getNewAccessToken net
            (s.emit (Event.fetch (firstRequest s url options)))).2.trace req2 := by
  rw [fetchProtected_refreshed net s url options r1 h1 hst hok, ha]
  refine ⟨_, rfl, rfl, rfl, rfl, ?_, ?_, rfl⟩
  · exact Headers.get_set_same _ _ _
  · intro key hne
    exact Headers.get_set_other _ _ _ _ hne

/-- C3 at a concrete input: the retry is answered with a second 401, which is what the
caller receives. -/
theorem fetchProtected_retry_after_refresh_witness :
    netAlways401 loggedIn.trace (firstRequest loggedIn sampleUrl postOptions)
      = Except.ok (jsonResponse 401 (JsonData.obj [])) ∧
    (getNewAccessToken netAlways401
      (loggedIn.emit (Event.fetch (firstRequest loggedIn sampleUrl postOptions)))).1 = true ∧
    (getNewAccessToken netAlways401
      (loggedIn.emit (Event.fetch (firstRequest loggedIn sampleUrl postOptions)))).2.accessToken
      = JsVal.str "A2" ∧
    ∃ req2,
      (fetchProtected netAlways401 loggedIn sampleUrl postOptions).2.trace
        = (getNewAccessToken netAlways401
            (loggedIn.emit (Event.fetch (firstRequest loggedIn sampleUrl postOptions)))).2.trace
          ++ [Event.fetch req2] ∧
      req2.url = (firstRequest loggedIn sampleUrl postOptions).url ∧
      req2.method = (firstRequest loggedIn sampleUrl postOptions).method ∧
      req2.body = (firstRequest loggedIn sampleUrl postOptions).body ∧
      req2.headers.get "Authorization" = some ("Bearer " ++ (JsVal.str "A2").toStr) ∧
      (∀ key, key ≠ "Authorization" →
        req2.headers.get key
          = (firstRequest loggedIn sampleUrl postOptions).headers.get key) ∧
      (fetchProtected netAlways401 loggedIn sampleUrl postOptions).1
        = netAlways401 (getNewAccessToken netAlways401
            (loggedIn.emit
              (Event.fetch (firstRequest loggedIn sampleUrl postOptions)))).2.trace req2 :=
  ⟨rfl, by decide, by decide,
    fetchProtected_retry_after_refresh netAlways401 loggedIn sampleUrl postOptions
      (jsonResponse 401 (JsonData.obj [])) (JsVal.str "A2") rfl rfl (by decide) (by decide)⟩

/-- C4, the claim as stated fails: with a 401 first response and a successful refresh
exchange, the run makes three network calls, not two (the refresh exchange is one). -/
theorem fetchProtected_three_network_calls :
    loggedIn.trace = [] ∧
    netRenew loggedIn.trace (firstRequest loggedIn sampleUrl postOptions)
      = Except.ok (jsonResponse 401 (JsonData.obj [])) ∧
    (getNewAccessToken netRenew
      (loggedIn.emit (Event.fetch (firstRequest loggedIn sampleUrl postOptions)))).1 = true ∧
    fetches (fetchProtected netRenew loggedIn sampleUrl postOptions).2.trace
      = [firstRequest loggedIn sampleUrl postOptions,
         refreshRequest (JsVal.str "R1"),
         mkRequest sampleUrl postOptions
           [("Content-Type", "application/json"), ("Authorization", "Bearer A2")]] ∧
    (fetches (fetchProtected netRenew loggedIn sampleUrl postOptions).2.trace).length ≠ 2 := by
  refine ⟨rfl, rfl, ?_, ?_, ?_⟩ <;> decide

/-- C4 as amended: when the first response has status 401 and the refresh exchange
succeeds, the events of the call are exactly four, in this order: the original request, one
entry into the refresh operation, the refresh exchange, and one retry of the target with
`Authorization` set to the bearer of the new access token. So the target is requested
exactly twice and the refresh operation runs exactly once, whatever the retry is answered
(a 401 included). -/
theorem fetchProtected_refreshed_events (net : Net) (s : State) (url : String)
    (options : Options) (r1 : Response)
    (h1 : net s.trace (firstRequest s url options) = Except.ok r1)
    (hst : r1.status = 401)
    (hok : (getNewAccessToken net (s.emit (Event.fetch (firstRequest s url options)))).1
      = true) :
    ∃ req2,
      (fetchProtected net s url options).2.trace
        = s.trace ++ [Event.fetch (firstRequest s url options), Event.refresh,
            Event.fetch (refreshRequest (s.refreshToken.or s.getItem)), Event.fetch req2] ∧
      req2.url = url ∧
      req2.headers.get "Authorization"
        = some ("Bearer " ++ (fetchProtected net s url options).2.accessToken.toStr) ∧
      fetches (fetchProtected net s url options).2.trace
        = fetches s.trace ++ [firstRequest s url options,
            refreshRequest (s.refreshToken.or s.getItem), req2] ∧
      refreshCount (fetchProtected net s url options).2.trace = refreshCount s.trace + 1 := by
  have htr : (getNewAccessToken net
      (s.emit (Event.fetch (firstRequest s url options)))).2.trace
      = s.trace ++ [Event.fetch (firstRequest s url options), Event.refresh,
          Event.fetch (refreshRequest (s.refreshToken.or s.getItem))] := by
    cases h : ((s.emit (Event.fetch (firstRequest s url options))).refreshToken.or
        (s.emit (Event.fetch (firstRequest s url options))).getItem).truthy with
    | false =>
      rw [getNewAccessToken_missing net _ h] at hok
      exact absurd hok (by simp)
    | true =>
      cases hx : refreshExchange (net
          ((s.emit (Event.fetch (firstRequest s url options))).trace ++ [Event.refresh])
          (refreshRequest ((s.emit (Event.fetch (firstRequest s url options))).refreshToken.or
            (s.emit (Event.fetch (firstRequest s url options))).getItem))) with
      | ok a =>
        rw [getNewAccessToken_ok net _ a h hx]
        simp
      | error e =>
        rw [getNewAccessToken_error net _ e h hx] at hok
        exact absurd hok (by simp)
  rw [fetchProtected_refreshed net s url options r1 h1 hst hok]
  refine ⟨mkRequest url options ((firstHeaders s options).set "Authorization"
    ("Bearer " ++ (getNewAccessToken net
      (s.emit (Event.fetch (firstRequest s url options)))).2.accessToken.toStr)),
    ?_, rfl, ?_, ?_, ?_⟩
  · simp [htr]
  · exact Headers.get_set_same _ _ _
  · simp [htr, fetches_append, fetches]
  · simp [htr, refreshCount_append, refreshCount]

/-- C4 as amended, at a concrete input where the retry is answered with another 401. -/
theorem fetchProtected_refreshed_events_witness :
    netAlways401 loggedIn.trace (firstRequest loggedIn sampleUrl postOptions)
      = Except.ok (jsonResponse 401 (JsonData.obj [])) ∧
    (getNewAccessToken netAlways401
      (loggedIn.emit (Event.fetch (firstRequest loggedIn sampleUrl postOptions)))).1 = true ∧
    ∃ req2,
      (fetchProtected netAlways401 loggedIn sampleUrl postOptions).2.trace
        = loggedIn.trace ++ [Event.fetch (firstRequest loggedIn sampleUrl postOptions),
            Event.refresh,
            Event.fetch (refreshRequest (loggedIn.refreshToken.or loggedIn.getItem)),
            Event.fetch req2] ∧
      req2.url = sampleUrl ∧
      req2.headers.get "Authorization"
        = some ("Bearer " ++
            (fetchProtected netAlways401 loggedIn sampleUrl postOptions).2.accessToken.toStr) ∧
      fetches (fetchProtected netAlways401 loggedIn sampleUrl postOptions).2.trace
        = fetches loggedIn.trace ++ [firstRequest loggedIn sampleUrl postOptions,
            refreshRequest (loggedIn.refreshToken.or loggedIn.getItem), req2] ∧
      refreshCount (fetchProtected netAlways401 loggedIn sampleUrl postOptions).2.trace
        = refreshCount loggedIn.trace + 1 :=
  ⟨rfl, by decide,
    fetchProtected_refreshed_events netAlways401 loggedIn sampleUrl postOptions
      (jsonResponse 401 (JsonData.obj [])) rfl rfl (by decide)⟩

/-- C5: when the first response has a status other than 401, `fetchProtected` resolves to
that response itself; the call adds one event to the trace, its single request, so the
refresh operation is not entered; and the access token, the in-memory refresh token and the
durable refresh token are left as they were. -/
theorem fetchProtected_other_status_passthrough (net : Net) (s : State) (url : String)
    (options : Options) (r1 : Response)
    (h1 : net s.trace (firstRequest s url options) = Except.ok r1)
    (hst : r1.status ≠ 401) :
    (fetchProtected net s url options).1 = Except.ok r1 ∧
    (fetchProtected net s url options).2.trace
      = s.trace ++ [Event.fetch (firstRequest s url options)] ∧
    fetches (fetchProtected net s url options).2.trace
      = fetches s.trace ++ [firstRequest s url options] ∧
    refreshCount (fetchProtected net s url options).2.trace = refreshCount s.trace ∧
    (fetchProtected net s url options).2.accessToken = s.accessToken ∧
    (fetchProtected net s url options).2.refreshToken = s.refreshToken ∧
    (fetchProtected net s url options).2.storedRefreshToken = s.storedRefreshToken := by
  rw [fetchProtected_other_status net s url options r1 h1 hst]
  refine ⟨rfl, rfl, ?_, ?_, rfl, rfl, rfl⟩
  · simp [fetches_append, fetches]
  · simp [refreshCount_append, refreshCount]

/-- C5 at a concrete input: a 200 answer to a logged-in caller. -/
theorem fetchProtected_other_status_passthrough_witness :
    netOk loggedIn.trace (firstRequest loggedIn sampleUrl postOptions)
      = Except.ok (jsonResponse 200 (JsonData.obj [])) ∧
    (jsonResponse 200 (JsonData.obj [])).status ≠ 401 ∧
    (fetchProtected netOk loggedIn sampleUrl postOptions).1
      = Except.ok (jsonResponse 200 (JsonData.obj [])) ∧
    (fetchProtected netOk loggedIn sampleUrl postOptions).2.trace
      = loggedIn.trace ++ [Event.fetch (firstRequest loggedIn sampleUrl postOptions)] ∧
    fetches (fetchProtected netOk loggedIn sampleUrl postOptions).2.trace
      = fetches loggedIn.trace ++ [firstRequest loggedIn sampleUrl postOptions] ∧
    refreshCount (fetchProtected netOk loggedIn sampleUrl postOptions).2.trace
      = refreshCount loggedIn.trace ∧
    (fetchProtected netOk loggedIn sampleUrl postOptions).2.accessToken
      = loggedIn.accessToken ∧
    (fetchProtected netOk loggedIn sampleUrl postOptions).2.refreshToken
      = loggedIn.refreshToken ∧
    (fetchProtected netOk loggedIn sampleUrl postOptions).2.storedRefreshToken
      = loggedIn.storedRefreshToken :=
  ⟨rfl, by decide,
    fetchProtected_other_status_passthrough netOk loggedIn sampleUrl postOptions
      (jsonResponse 200 (JsonData.obj [])) rfl (by decide)⟩

/-- C6, the claim as stated fails: with no access token in Session State, a request whose
caller supplied an `Authorization` header is issued with that header. -/
theorem fetchProtected_keeps_caller_authorization :
    loggedOut.accessToken.truthy = false ∧
    fetches (fetchProtected netOk loggedOut sampleUrl basicAuthOptions).2.trace
      = [firstRequest loggedOut sampleUrl basicAuthOptions] ∧
    (firstRequest loggedOut sampleUrl basicAuthOptions).headers.get "Authorization"
      = some "Basic abc" := by
  refine ⟨?_, ?_, ?_⟩ <;> decide

/-- C6 as amended: with no access token in Session State, the first request of
`fetchProtected` carries exactly the caller's headers (an empty header object when the caller
gave none), so it has an `Authorization` header only if the caller supplied one; and the
refresh operation is entered only if the first response has status 401. -/
theorem fetchProtected_without_token (net : Net) (s : State) (url : String)
    (options : Options) (hno : s.accessToken.truthy = false) :
    (∃ rest, (fetchProtected net s url options).2.trace
      = s.trace ++ Event.fetch (firstRequest s url options) :: rest) ∧
    (firstRequest s url options).headers = options.headers.getD [] ∧
    (firstRequest s url options).headers.get "Authorization"
      = (options.headers.getD []).get "Authorization" ∧
    (refreshCount (fetchProtected net s url options).2.trace ≠ refreshCount s.trace →
      ∃ r1, net s.trace (firstRequest s url options) = Except.ok r1 ∧ r1.status = 401) := by
  have hh : (firstRequest s url options).headers = options.headers.getD [] := by
    simp [firstRequest, mkRequest, firstHeaders, hno]
  refine ⟨?_, hh, by rw [hh], ?_⟩
  · cases h1 : net s.trace (firstRequest s url options) with
    | error e =>
      rw [fetchProtected_transport_error net s url options e h1]
      exact ⟨[], rfl⟩
    | ok r1 =>
      by_cases hst : r1.status = 401
      · cases hr : (getNewAccessToken net
            (s.emit (Event.fetch (firstRequest s url options)))).1 with
        | false =>
          rw [fetchProtected_refresh_failed net s url options r1 h1 hst hr]
          rcases getNewAccessToken_trace net
            (s.emit (Event.fetch (firstRequest s url options))) with h | h
          · exact ⟨_, by simp [h]; rfl⟩
          · exact ⟨_, by simp [h]; rfl⟩
        | true =>
          rw [fetchProtected_refreshed net s url options r1 h1 hst hr]
          rcases getNewAccessToken_trace net
            (s.emit (Event.fetch (firstRequest s url options))) with h | h
          · exact ⟨_, by simp [h]; rfl⟩
          · exact ⟨_, by simp [h]; rfl⟩
      · rw [fetchProtected_other_status net s url options r1 h1 hst]
        exact ⟨[], rfl⟩
  · intro hcount
    cases h1 : net s.trace (firstRequest s url options) with
    | error e =>
      rw [fetchProtected_transport_error net s url options e h1] at hcount
      simp [refreshCount_append, refreshCount] at hcount
    | ok r1 =>
      by_cases hst : r1.status = 401
      · exact ⟨r1, rfl, hst⟩
      · rw [fetchProtected_other_status net s url options r1 h1 hst] at hcount
        simp [refreshCount_append, refreshCount] at hcount

/-- C6 as amended, at a concrete input: no token, no caller headers, a 401 answer and no
refresh token to use. -/
theorem fetchProtected_without_token_witness :
    loggedOut.accessToken.truthy = false ∧
    (firstRequest loggedOut sampleUrl { }).headers.get "Authorization" = none ∧
    refreshCount (fetchProtected netReject loggedOut sampleUrl { }).2.trace = 1 ∧
    ∃ r1, netReject loggedOut.trace (firstRequest loggedOut sampleUrl { }) = Except.ok r1 ∧
      r1.status = 401 :=
  ⟨by decide,
    (fetchProtected_without_token netReject loggedOut sampleUrl { } (by decide)).2.2.1,
    by decide,
    (fetchProtected_without_token netReject loggedOut sampleUrl { } (by decide)).2.2.2
      (by decide)⟩

/-- C7, the claim as stated fails: in a session that holds an access token but no usable
refresh token, `getNewAccessToken` fails at its first guard and clears nothing: the access
token is still held and the durable entry is still there. -/
theorem getNewAccessToken_missing_token_keeps_access :
    (getNewAccessToken netOk emptyRefresh).1 = false ∧
    (getNewAccessToken netOk emptyRefresh).2.accessToken = JsVal.str "A1" ∧
    (getNewAccessToken netOk emptyRefresh).2.accessToken ≠ JsVal.null ∧
    (getNewAccessToken netOk emptyRefresh).2.storedRefreshToken = some "" ∧
    (getNewAccessToken netOk emptyRefresh).2.storedRefreshToken ≠ none := by
  refine ⟨?_, ?_, ?_, ?_, ?_⟩ <;> decide

/-- C7 as amended: when `getNewAccessToken` fails and a refresh token was available (so the
refresh request was sent: remote rejection, transport error or unreadable body), afterwards
the access token and the in-memory refresh token are `null` and the durable entry is removed;
when it fails because no refresh token is available, the three are left as they were and no
request is made. -/
theorem getNewAccessToken_failure_effects (net : Net) (s : State)
    (hfail : (getNewAccessToken net s).1 = false) :
    ((s.refreshToken.or s.getItem).truthy = true →
      (getNewAccessToken net s).2.accessToken = JsVal.null ∧
      (getNewAccessToken net s).2.refreshToken = JsVal.null ∧
      (getNewAccessToken net s).2.storedRefreshToken = none) ∧
    ((s.refreshToken.or s.getItem).truthy = false →
      (getNewAccessToken net s).2.accessToken = s.accessToken ∧
      (getNewAccessToken net s).2.refreshToken = s.refreshToken ∧
      (getNewAccessToken net s).2.storedRefreshToken = s.storedRefreshToken ∧
      (getNewAccessToken net s).2.trace = s.trace ++ [Event.refresh]) := by
  constructor
  · intro h
    cases hx : refreshExchange (net (s.trace ++ [Event.refresh])
        (refreshRequest (s.refreshToken.or s.getItem))) with
    | ok a =>
      rw [getNewAccessToken_ok net s a h hx] at hfail
      exact absurd hfail (by simp)
    | error e =>
      rw [getNewAccessToken_error net s e h hx]
      exact ⟨rfl, rfl, rfl⟩
  · intro h
    rw [getNewAccessToken_missing net s h]
    exact ⟨rfl, rfl, rfl, rfl⟩

/-- C7 as amended, at a concrete input: the identity service rejects the refresh of a
logged-in session. -/
theorem getNewAccessToken_failure_effects_witness :
    (getNewAccessToken netReject loggedIn).1 = false ∧
    (loggedIn.refreshToken.or loggedIn.getItem).truthy = true ∧
    (getNewAccessToken netReject loggedIn).2.accessToken = JsVal.null ∧
    (getNewAccessToken netReject loggedIn).2.refreshToken = JsVal.null ∧
    (getNewAccessToken netReject loggedIn).2.storedRefreshToken = none :=
  ⟨by decide, by decide,
    (getNewAccessToken_failure_effects netReject loggedIn (by decide)).1 (by decide)⟩

/-- C8, the claim as stated fails: on a page load with a stored refresh token and nothing in
memory, a successful refresh changes the in-memory refresh token from `null` to the stored
token. -/
theorem getNewAccessToken_sets_memory_refresh_token :
    (getNewAccessToken netRenew pageLoad).1 = true ∧
    pageLoad.refreshToken = JsVal.null ∧
    (getNewAccessToken netRenew pageLoad).2.refreshToken = JsVal.str "R1" ∧
    (getNewAccessToken netRenew pageLoad).2.refreshToken ≠ pageLoad.refreshToken := by
  refine ⟨?_, ?_, ?_, ?_⟩ <;> decide

/-- C8 as amended: when `getNewAccessToken` succeeds, the access token afterwards is the
`access_token` value read from the JSON body of the answer to the refresh request, the
durable refresh token is unchanged, and the in-memory refresh token afterwards is the token
that was sent: unchanged when one was held in memory, otherwise the durable one. -/
theorem getNewAccessToken_success_effects (net : Net) (s : State)
    (hok : (getNewAccessToken net s).1 = true) :
    (∃ response data,
      net (s.trace ++ [Event.refresh]) (refreshRequest (s.refreshToken.or s.getItem))
        = Except.ok response ∧
      response.json = Except.ok data ∧
      data.prop "access_token" = Except.ok (getNewAccessToken net s).2.accessToken) ∧
    (getNewAccessToken net s).2.storedRefreshToken = s.storedRefreshToken ∧
    (getNewAccessToken net s).2.refreshToken = s.refreshToken.or s.getItem ∧
    (s.refreshToken.truthy = true → (getNewAccessToken net s).2.refreshToken = s.refreshToken) ∧
    (s.refreshToken.truthy = false → (getNewAccessToken net s).2.refreshToken = s.getItem) := by
  cases h : (s.refreshToken.or s.getItem).truthy with
  | false =>
    rw [getNewAccessToken_missing net s h] at hok
    exact absurd hok (by simp)
  | true =>
    cases hx : refreshExchange (net (s.trace ++ [Event.refresh])
        (refreshRequest (s.refreshToken.or s.getItem))) with
    | error e =>
      rw [getNewAccessToken_error net s e h hx] at hok
      exact absurd hok (by simp)
    | ok a =>
      rw [getNewAccessToken_ok net s a h hx]
      obtain ⟨response, data, hnet, hjson, _, hprop⟩ := (refreshExchange_ok_iff _ a).mp hx
      refine ⟨⟨response, data, hnet, hjson, hprop⟩, rfl, rfl, ?_, ?_⟩
      · intro ht
        simp [JsVal.or, ht]
      · intro ht
        simp [JsVal.or, ht]

/-- C8 as amended, at a concrete input: the refresh of a logged-in session succeeds. -/
theorem getNewAccessToken_success_effects_witness :
    (getNewAccessToken netRenew loggedIn).1 = true ∧
    (getNewAccessToken netRenew loggedIn).2.accessToken = JsVal.str "A2" ∧
    (getNewAccessToken netRenew loggedIn).2.storedRefreshToken = loggedIn.storedRefreshToken ∧
    (getNewAccessToken netRenew loggedIn).2.refreshToken = loggedIn.refreshToken :=
  ⟨by decide, by decide,
    (getNewAccessToken_success_effects netRenew loggedIn (by decide)).2.1,
    (getNewAccessToken_success_effects netRenew loggedIn (by decide)).2.2.2.1 (by decide)⟩

/-- C9, the claim as stated fails: a refresh token is available and the identity service
answers with status 200 and the readable JSON body `null`, yet `getNewAccessToken` returns
false, because reading `access_token` from `null` throws into the `catch`. -/
theorem getNewAccessToken_null_body_fails :
    (loggedIn.refreshToken.or loggedIn.getItem).truthy = true ∧
    netNullBody (loggedIn.trace ++ [Event.refresh])
        (refreshRequest (loggedIn.refreshToken.or loggedIn.getItem))
      = Except.ok (jsonResponse 200 JsonData.null) ∧
    (jsonResponse 200 JsonData.null).ok = true ∧
    (jsonResponse 200 JsonData.null).json = Except.ok JsonData.null ∧
    (getNewAccessToken netNullBody loggedIn).1 = false := by
  refine ⟨?_, rfl, ?_, rfl, ?_⟩ <;> decide

/-- C9 as amended: `getNewAccessToken` returns true if and only if a refresh token was
available and the answer to the refresh request has a success status and a body that reads
as JSON other than `null`; in every other case (no token, transport error, unreadable body,
non-success status, `null` body) it returns false. -/
theorem getNewAccessToken_true_iff (net : Net) (s : State) :
    (getNewAccessToken net s).1 = true ↔
      (s.refreshToken.or s.getItem).truthy = true ∧
      ∃ response data,
        net (s.trace ++ [Event.refresh]) (refreshRequest (s.refreshToken.or s.getItem))
          = Except.ok response ∧
        response.ok = true ∧ response.json = Except.ok data ∧ data ≠ JsonData.null := by
  cases h : (s.refreshToken.or s.getItem).truthy with
  | false =>
    rw [getNewAccessToken_missing net s h]
    simp
  | true =>
    cases hx : refreshExchange (net (s.trace ++ [Event.refresh])
        (refreshRequest (s.refreshToken.or s.getItem))) with
    | ok a =>
      rw [getNewAccessToken_ok net s a h hx]
      obtain ⟨response, data, hnet, hjson, hok, hprop⟩ := (refreshExchange_ok_iff _ a).mp hx
      refine ⟨fun _ => ⟨rfl, response, data, hnet, hok, hjson, ?_⟩, fun _ => rfl⟩
      intro hnull
      rw [hnull] at hprop
      simp [JsonData.prop] at hprop
    | error e =>
      rw [getNewAccessToken_error net s e h hx]
      constructor
      · intro hf
        exact absurd hf (by simp)
      · rintro ⟨_, response, data, hnet, hok, hjson, hnn⟩
        exfalso
        cases data with
        | null => exact hnn rfl
        | obj fields =>
          have hx2 := (refreshExchange_ok_iff
            (net (s.trace ++ [Event.refresh]) (refreshRequest (s.refreshToken.or s.getItem)))
            ((fields.lookup "access_token").getD JsVal.undefined)).mpr
            ⟨response, JsonData.obj fields, hnet, hjson, hok, rfl⟩
          rw [hx] at hx2
          cases hx2

/-- C9 as amended, at a concrete input: the refresh of a logged-in session is answered with
status 200 and an object body, so it returns true. -/
theorem getNewAccessToken_true_iff_witness :
    (getNewAccessToken netRenew loggedIn).1 = true :=
  (getNewAccessToken_true_iff netRenew loggedIn).mpr
    ⟨by decide, jsonResponse 200 (JsonData.obj [("access_token", JsVal.str "A2")]),
      JsonData.obj [("access_token", JsVal.str "A2")], rfl, by decide, rfl, by decide⟩

/-- C10: `getNewAccessToken` sends the in-memory refresh token as `refresh_token` when one is
held; when none is held it sends the durable `refreshToken` entry if that is a non-empty
string; and when neither is there it returns false at once, the trace gaining only its entry
event and no network call. The request it sends is a `POST` to `/auth/refresh` of the
identity service whose JSON body has the single field `refresh_token`. -/
theorem getNewAccessToken_token_choice (net : Net) (s : State) :
    (s.refreshToken.truthy = true →
      fetches (getNewAccessToken net s).2.trace
        = fetches s.trace ++ [refreshRequest s.refreshToken]) ∧
    (s.refreshToken.truthy = false → ∀ d, s.storedRefreshToken = some d → d ≠ "" →
      fetches (getNewAccessToken net s).2.trace
        = fetches s.trace ++ [refreshRequest (JsVal.str d)]) ∧
    (s.refreshToken.truthy = false →
      (s.storedRefreshToken = none ∨ s.storedRefreshToken = some "") →
      (getNewAccessToken net s).1 = false ∧
      (getNewAccessToken net s).2.trace = s.trace ++ [Event.refresh] ∧
      fetches (getNewAccessToken net s).2.trace = fetches s.trace) ∧
    (∀ tok, (refreshRequest tok).url = AUTH_SERVICE_URL ++ "/auth/refresh" ∧
      (refreshRequest tok).method = some "POST" ∧
      (refreshRequest tok).body = some (Body.jsonOf [("refresh_token", tok)])) := by
  have sent : ∀ tok, s.refreshToken.or s.getItem = tok → tok.truthy = true →
      fetches (getNewAccessToken net s).2.trace = fetches s.trace ++ [refreshRequest tok] := by
    intro tok htok ht
    rw [← htok] at ht
    cases hx : refreshExchange (net (s.trace ++ [Event.refresh])
        (refreshRequest (s.refreshToken.or s.getItem))) with
    | ok a =>
      rw [getNewAccessToken_ok net s a ht hx, ← htok]
      simp [fetches_append, fetches]
    | error e =>
      rw [getNewAccessToken_error net s e ht hx, ← htok]
      simp [fetches_append, fetches]
  refine ⟨?_, ?_, ?_, fun tok => ⟨rfl, rfl, rfl⟩⟩
  · intro hm
    exact sent s.refreshToken (by simp [JsVal.or, hm]) hm
  · intro hm d hd hne
    refine sent (JsVal.str d) ?_ ?_
    · simp [JsVal.or, hm, State.getItem, hd]
    · simp [JsVal.truthy, hne]
  · intro hm hd
    have hor : s.refreshToken.or s.getItem = s.getItem := by simp [JsVal.or, hm]
    have hmiss : (s.refreshToken.or s.getItem).truthy = false := by
      rw [hor]
      rcases hd with hd | hd <;> simp [State.getItem, hd, JsVal.truthy]
    rw [getNewAccessToken_missing net s hmiss]
    refine ⟨rfl, rfl, ?_⟩
    simp [fetches_append, fetches]

/-- C10 at concrete inputs: a logged-in session sends its in-memory token, a page load sends
the stored token, and a session without any token makes no call. -/
theorem getNewAccessToken_token_choice_witness :
    fetches (getNewAccessToken netRenew loggedIn).2.trace
      = fetches loggedIn.trace ++ [refreshRequest loggedIn.refreshToken] ∧
    fetches (getNewAccessToken netRenew pageLoad).2.trace
      = fetches pageLoad.trace ++ [refreshRequest (JsVal.str "R1")] ∧
    ((getNewAccessToken netRenew loggedOut).1 = false ∧
      (getNewAccessToken netRenew loggedOut).2.trace = loggedOut.trace ++ [Event.refresh] ∧
      fetches (getNewAccessToken netRenew loggedOut).2.trace = fetches loggedOut.trace) :=
  ⟨(getNewAccessToken_token_choice netRenew loggedIn).1 (by decide),
    (getNewAccessToken_token_choice netRenew pageLoad).2.1 (by decide) "R1" rfl (by decide),
    (getNewAccessToken_token_choice netRenew loggedOut).2.2.1 (by decide) (Or.inl rfl)⟩

/-- C11: when `localStorage` holds no refresh token, `checkLoginState` makes no network call
(the trace is unchanged), leaves the access token, the in-memory refresh token and the durable
entry as they were, does not start `initializeApp`, shows the login panel and hides the main
container; and running it again on the resulting page gives that same page. -/
theorem checkLoginState_without_stored_token (net : Net) (p : Page)
    (hno : p.session.getItem.truthy = false) :
    (checkLoginState net p).session.trace = p.session.trace ∧
    (checkLoginState net p).session.accessToken = p.session.accessToken ∧
    (checkLoginState net p).session.refreshToken = p.session.refreshToken ∧
    (checkLoginState net p).session.storedRefreshToken = p.session.storedRefreshToken ∧
    (checkLoginState net p).initializeAppCalls = p.initializeAppCalls ∧
    (checkLoginState net p).loginPanelDisplay = "block" ∧
    (checkLoginState net p).mainContainerDisplay = "none" ∧
    checkLoginState net (checkLoginState net p) = checkLoginState net p := by
  have h1 := checkLoginState_no_stored net p hno
  have hno2 : (checkLoginState net p).session.getItem.truthy = false := by
    rw [h1]
    exact hno
  have h2 := checkLoginState_no_stored net (checkLoginState net p) hno2
  refine ⟨?_, ?_, ?_, ?_, ?_, ?_, ?_, ?_⟩
  · rw [h1]
  · rw [h1]
  · rw [h1]
  · rw [h1]
  · rw [h1]
  · rw [h1]
  · rw [h1]
  · rw [h2, h1]

/-- C11 at a concrete input: a first visit, with nothing stored. -/
theorem checkLoginState_without_stored_token_witness :
    (pageOf loggedOut).session.getItem.truthy = false ∧
    (checkLoginState netRenew (pageOf loggedOut)).session.trace = [] ∧
    (checkLoginState netRenew (pageOf loggedOut)).loginPanelDisplay = "block" ∧
    (checkLoginState netRenew (pageOf loggedOut)).mainContainerDisplay = "none" ∧
    checkLoginState netRenew (checkLoginState netRenew (pageOf loggedOut))
      = checkLoginState netRenew (pageOf loggedOut) :=
  ⟨by decide,
    (checkLoginState_without_stored_token netRenew (pageOf loggedOut) (by decide)).1,
    (checkLoginState_without_stored_token netRenew (pageOf loggedOut) (by decide)).2.2.2.2.2.1,
    (checkLoginState_without_stored_token netRenew (pageOf loggedOut)
      (by decide)).2.2.2.2.2.2.1,
    (checkLoginState_without_stored_token netRenew (pageOf loggedOut)
      (by decide)).2.2.2.2.2.2.2⟩

/-- C12: with a refresh token `r` in `localStorage` and no tokens in memory, when the
identity service answers the refresh of `r` with a success status and a JSON object whose
`access_token` is `a`, `checkLoginState` shows the main container, keeps the login panel
hidden, leaves the access token equal to `a`, and starts `initializeApp` once. -/
theorem checkLoginState_recovers_session (net : Net) (p : Page) (r : String)
    (response : Response) (fields : List (String × JsVal)) (a : JsVal)
    (hstored : p.session.storedRefreshToken = some r) (hr : r ≠ "")
    (hacc : p.session.accessToken = JsVal.null)
    (hmem : p.session.refreshToken = JsVal.null)
    (hnet : net (p.session.trace ++ [Event.refresh]) (refreshRequest (JsVal.str r))
      = Except.ok response)
    (hok : response.ok = true)
    (hjson : response.json = Except.ok (JsonData.obj fields))
    (ha : fields.lookup "access_token" = some a) :
    (checkLoginState net p).mainContainerDisplay = "flex" ∧
    (checkLoginState net p).loginPanelDisplay = "none" ∧
    (checkLoginState net p).session.accessToken = a ∧
    (checkLoginState net p).session.refreshToken = JsVal.str r ∧
    (checkLoginState net p).session.storedRefreshToken = some r ∧
    (checkLoginState net p).initializeAppCalls = p.initializeAppCalls + 1 := by
  have _ := hacc
  have hget : p.session.getItem = JsVal.str r := by simp [State.getItem, hstored]
  have htok : p.session.refreshToken.or p.session.getItem = JsVal.str r := by
    simp [JsVal.or, hmem, JsVal.truthy, hget]
  have htruthy : (JsVal.str r).truthy = true := by simp [JsVal.truthy, hr]
  have hx : refreshExchange (net (p.session.trace ++ [Event.refresh])
      (refreshRequest (p.session.refreshToken.or p.session.getItem))) = Except.ok a := by
    rw [htok]
    exact (refreshExchange_ok_iff _ a).mpr
      ⟨response, JsonData.obj fields, hnet, hjson, hok, by simp [JsonData.prop, ha]⟩
  have hg := getNewAccessToken_ok net p.session a (by rw [htok]; exact htruthy) hx
  have h := checkLoginState_refreshed net p (by rw [hget]; exact htruthy) (by rw [hg])
  rw [h, hg, htok]
  exact ⟨rfl, rfl, rfl, rfl, hstored, rfl⟩

/-- C12 at a concrete input: the stored token `R1` is exchanged for the access token `A2`. -/
theorem checkLoginState_recovers_session_witness :
    (checkLoginState netRenew (pageOf pageLoad)).mainContainerDisplay = "flex" ∧
    (checkLoginState netRenew (pageOf pageLoad)).loginPanelDisplay = "none" ∧
    (checkLoginState netRenew (pageOf pageLoad)).session.accessToken = JsVal.str "A2" ∧
    (checkLoginState netRenew (pageOf pageLoad)).session.refreshToken = JsVal.str "R1" ∧
    (checkLoginState netRenew (pageOf pageLoad)).session.storedRefreshToken = some "R1" ∧
    (checkLoginState netRenew (pageOf pageLoad)).initializeAppCalls
      = (pageOf pageLoad).initializeAppCalls + 1 :=
  checkLoginState_recovers_session netRenew (pageOf pageLoad) "R1"
    (jsonResponse 200 (JsonData.obj [("access_token", JsVal.str "A2")]))
    [("access_token", JsVal.str "A2")] (JsVal.str "A2")
    rfl (by decide) rfl rfl rfl (by decide) rfl (by decide)

/-- C13: with a refresh token in `localStorage` whose refresh fails (whatever made
`getNewAccessToken` return false: a non-success status, a transport error, an unreadable
body), `checkLoginState` ends with the durable entry removed, both in-memory tokens `null`,
`initializeApp` not started, the login panel shown, the main container hidden, and the login
status reading "Tu sesión expiró. Por favor, inicia sesión de nuevo." in red. -/
theorem checkLoginState_refresh_failed (net : Net) (p : Page)
    (hstored : p.session.getItem.truthy = true)
    (hfail : (getNewAccessToken net p.session).1 = false) :
    (checkLoginState net p).session.storedRefreshToken = none ∧
    (checkLoginState net p).session.accessToken = JsVal.null ∧
    (checkLoginState net p).session.refreshToken = JsVal.null ∧
    (checkLoginState net p).initializeAppCalls = p.initializeAppCalls ∧
    (checkLoginState net p).loginPanelDisplay = "block" ∧
    (checkLoginState net p).mainContainerDisplay = "none" ∧
    (checkLoginState net p).loginStatusText
      = "Tu sesión expiró. Por favor, inicia sesión de nuevo." ∧
    (checkLoginState net p).loginStatusColor = "red" := by
  have htok := truthy_or_of_getItem p.session hstored
  rw [checkLoginState_failed net p hstored hfail]
  cases hx : refreshExchange (net (p.session.trace ++ [Event.refresh])
      (refreshRequest (p.session.refreshToken.or p.session.getItem))) with
  | ok a =>
    rw [getNewAccessToken_ok net p.session a htok hx] at hfail
    exact absurd hfail (by simp)
  | error e =>
    rw [getNewAccessToken_error net p.session e htok hx]
    exact ⟨rfl, rfl, rfl, rfl, rfl, rfl, rfl, rfl⟩

/-- C13 at a concrete input: the identity service answers the refresh of the stored token
with status 401. -/
theorem checkLoginState_refresh_failed_witness :
    (pageOf pageLoad).session.getItem.truthy = true ∧
    (getNewAccessToken netReject (pageOf pageLoad).session).1 = false ∧
    (checkLoginState netReject (pageOf pageLoad)).session.storedRefreshToken = none ∧
    (checkLoginState netReject (pageOf pageLoad)).session.accessToken = JsVal.null ∧
    (checkLoginState netReject (pageOf pageLoad)).session.refreshToken = JsVal.null ∧
    (checkLoginState netReject (pageOf pageLoad)).initializeAppCalls
      = (pageOf pageLoad).initializeAppCalls ∧
    (checkLoginState netReject (pageOf pageLoad)).loginPanelDisplay = "block" ∧
    (checkLoginState netReject (pageOf pageLoad)).mainContainerDisplay = "none" ∧
    (checkLoginState netReject (pageOf pageLoad)).loginStatusText
      = "Tu sesión expiró. Por favor, inicia sesión de nuevo." ∧
    (checkLoginState netReject (pageOf pageLoad)).loginStatusColor = "red" :=
  ⟨by decide, by decide,
    checkLoginState_refresh_failed netReject (pageOf pageLoad) (by decide) (by decide)⟩

/-- C14: for a non-empty email and password, when the identity service answers the login
request (a `POST` to `/auth/login` carrying the email and the password) with a success status
and a JSON object with `access_token` equal to `a` and `refresh_token` equal to the string
`r`, `handleLogin` hides the login panel, shows the main container, starts `initializeApp`
once, and leaves `a` as access token, `r` as in-memory refresh token and `r` under
`refreshToken` in `localStorage`. -/
theorem handleLogin_success (net : Net) (p : Page) (email password : String)
    (response : Response) (fields : List (String × JsVal)) (a : JsVal) (r : String)
    (hemail : email ≠ "") (hpassword : password ≠ "")
    (hnet : net p.session.trace (loginRequest email password) = Except.ok response)
    (hok : response.ok = true)
    (hjson : response.json = Except.ok (JsonData.obj fields))
    (ha : fields.lookup "access_token" = some a)
    (hr : fields.lookup "refresh_token" = some (JsVal.str r)) :
    (handleLogin net p email password).loginPanelDisplay = "none" ∧
    (handleLogin net p email password).mainContainerDisplay = "flex" ∧
    (handleLogin net p email password).initializeAppCalls = p.initializeAppCalls + 1 ∧
    (handleLogin net p email password).session.accessToken = a ∧
    (handleLogin net p email password).session.refreshToken = JsVal.str r ∧
    (handleLogin net p email password).session.storedRefreshToken = some r ∧
    (loginRequest email password).url = AUTH_SERVICE_URL ++ "/auth/login" ∧
    (loginRequest email password).method = some "POST" ∧
    (loginRequest email password).body
      = some (Body.jsonOf [("email", JsVal.str email), ("password", JsVal.str password)]) := by
  have hx : loginExchange (net p.session.trace (loginRequest email password))
      = Except.ok (a, JsVal.str r) := by
    rw [hnet, loginExchange_object response fields hok hjson, ha, hr]
    rfl
  rw [handleLogin_ok net p email password a (JsVal.str r) hemail hpassword hx]
  exact ⟨rfl, rfl, rfl, rfl, rfl, rfl, rfl, rfl, rfl⟩

/-- C14 at a concrete input: a login answered with the tokens `A1` and `R1`. -/
theorem handleLogin_success_witness :
    (handleLogin netLogin (pageOf loggedOut) "ana@uni.mx" "secreto").loginPanelDisplay
      = "none" ∧
    (handleLogin netLogin (pageOf loggedOut) "ana@uni.mx" "secreto").mainContainerDisplay
      = "flex" ∧
    (handleLogin netLogin (pageOf loggedOut) "ana@uni.mx" "secreto").initializeAppCalls
      = (pageOf loggedOut).initializeAppCalls + 1 ∧
    (handleLogin netLogin (pageOf loggedOut) "ana@uni.mx" "secreto").session.accessToken
      = JsVal.str "A1" ∧
    (handleLogin netLogin (pageOf loggedOut) "ana@uni.mx" "secreto").session.refreshToken
      = JsVal.str "R1" ∧
    (handleLogin netLogin (pageOf loggedOut) "ana@uni.mx"
      "secreto").session.storedRefreshToken = some "R1" :=
  have h := handleLogin_success netLogin (pageOf loggedOut) "ana@uni.mx" "secreto"
    (jsonResponse 200
      (JsonData.obj [("access_token", JsVal.str "A1"), ("refresh_token", JsVal.str "R1")]))
    [("access_token", JsVal.str "A1"), ("refresh_token", JsVal.str "R1")]
    (JsVal.str "A1") "R1" (by decide) (by decide) rfl (by decide) rfl (by decide) (by decide)
  ⟨h.1, h.2.1, h.2.2.1, h.2.2.2.1, h.2.2.2.2.1, h.2.2.2.2.2.1⟩

/-- C15, the claim as stated fails, in two ways. First, with calls one after another: a
login answered with the number `123` as `refresh_token` leaves `123` in memory while
`localStorage` holds the string `"123"`. Second, with string tokens: after a login that
issued `R1`, two calls of `getNewAccessToken` overlap at the `await`; both have read `R1`,
the first fails and removes the durable entry, the second succeeds and writes `R1` back to
memory, so a refresh token is held in memory with no durable entry. -/
theorem refresh_token_not_mirrored :
    ((pageOf loggedOut).session.accessToken = JsVal.null ∧
      (pageOf loggedOut).session.refreshToken = JsVal.null ∧
      (runActions netNumericToken (pageOf loggedOut)
        [Action.login "ana@uni.mx" "secreto"]).session.refreshToken
        = JsVal.other true "123" ∧
      (runActions netNumericToken (pageOf loggedOut)
        [Action.login "ana@uni.mx" "secreto"]).session.storedRefreshToken = some "123" ∧
      ¬ Mirrored (runActions netNumericToken (pageOf loggedOut)
        [Action.login "ana@uni.mx" "secreto"]).session) ∧
    (afterLogin.refreshToken = JsVal.str "R1" ∧
      afterLogin.storedRefreshToken = some "R1" ∧
      (overlappedRefreshes afterLogin (Except.error "Failed to fetch")
        (Except.ok (jsonResponse 200
          (JsonData.obj [("access_token", JsVal.str "A2")])))).refreshToken
        = JsVal.str "R1" ∧
      (overlappedRefreshes afterLogin (Except.error "Failed to fetch")
        (Except.ok (jsonResponse 200
          (JsonData.obj [("access_token", JsVal.str "A2")])))).storedRefreshToken = none ∧
      ¬ Mirrored (overlappedRefreshes afterLogin (Except.error "Failed to fetch")
        (Except.ok (jsonResponse 200
          (JsonData.obj [("access_token", JsVal.str "A2")]))))) := by
  refine ⟨⟨rfl, rfl, ?_, ?_, ?_⟩, ⟨?_, ?_, ?_, ?_, ?_⟩⟩ <;> decide

/-- C15 as amended: start from a page with no tokens in memory and run any sequence of
`handleLogin`, `getNewAccessToken`, `fetchProtected` and `checkLoginState` calls, each to its
end before the next starts, against any network in which `refresh_token` is never anything
but a string, `null` or absent: in the page reached, whenever the in-memory refresh token is
held, `localStorage` holds the same value under `refreshToken`. -/
theorem refresh_token_mirrored_sequential (net : Net) (p : Page) (actions : List Action)
    (hstr : StringRefreshTokens net)
    (hacc : p.session.accessToken = JsVal.null)
    (hmem : p.session.refreshToken = JsVal.null) :
    (runActions net p actions).session.refreshToken.truthy = true →
      (runActions net p actions).session.getItem
        = (runActions net p actions).session.refreshToken := by
  have _ := hacc
  have h0 : Mirrored p.session := by
    intro hheld
    rw [hmem] at hheld
    exact absurd hheld (by simp [JsVal.truthy])
  exact Mirrored_runActions net hstr actions p h0

/-- C15 as amended, at a concrete input: a login, a request answered 401 and retried after a
refresh, a refresh and a page load, one after another. -/
theorem refresh_token_mirrored_sequential_witness :
    (runActions netLogin (pageOf loggedOut)
      [Action.login "ana@uni.mx" "secreto", Action.request sampleUrl postOptions,
       Action.refresh, Action.boot]).session.refreshToken = JsVal.str "R1" ∧
    (runActions netLogin (pageOf loggedOut)
      [Action.login "ana@uni.mx" "secreto", Action.request sampleUrl postOptions,
       Action.refresh, Action.boot]).session.getItem
      = (runActions netLogin (pageOf loggedOut)
          [Action.login "ana@uni.mx" "secreto", Action.request sampleUrl postOptions,
           Action.refresh, Action.boot]).session.refreshToken :=
  ⟨by decide,
    refresh_token_mirrored_sequential netLogin (pageOf loggedOut)
      [Action.login "ana@uni.mx" "secreto", Action.request sampleUrl postOptions,
       Action.refresh, Action.boot] netLogin_stringRefreshTokens rfl rfl (by decide)⟩

/-- C16: the events that one call of `fetchProtected` adds to the trace are exactly one of:
the target request alone; the target request and a refresh attempt (the entry into
`getNewAccessToken`, with or without its exchange with the identity service); or the target
request, a refresh attempt with its exchange, and a second target request. So there is at most
one refresh attempt and at most two target requests, and the second target request comes last,
after a refresh that returned true. -/
theorem fetchProtected_event_shapes (net : Net) (s : State) (url : String)
    (options : Options) :
    ∃ events, (fetchProtected net s url options).2.trace = s.trace ++ events ∧
      refreshCount events ≤ 1 ∧
      (events = [Event.fetch (firstRequest s url options)] ∨
       events = [Event.fetch (firstRequest s url options), Event.refresh] ∨
       events = [Event.fetch (firstRequest s url options), Event.refresh,
         Event.fetch (refreshRequest (s.refreshToken.or s.getItem))] ∨
       (∃ req2, events = [Event.fetch (firstRequest s url options), Event.refresh,
           Event.fetch (refreshRequest (s.refreshToken.or s.getItem)), Event.fetch req2] ∧
         req2.url = url ∧
         (getNewAccessToken net (s.emit (Event.fetch (firstRequest s url options)))).1
           = true)) := by
  cases hn : net s.trace (firstRequest s url options) with
  | error e =>
    rw [fetchProtected_transport_error net s url options e hn]
    exact ⟨_, rfl, by simp [refreshCount], Or.inl rfl⟩
  | ok r1 =>
    by_cases hst : r1.status = 401
    · cases hr : (getNewAccessToken net
          (s.emit (Event.fetch (firstRequest s url options)))).1 with
      | false =>
        rw [fetchProtected_refresh_failed net s url options r1 hn hst hr]
        rcases getNewAccessToken_trace net
          (s.emit (Event.fetch (firstRequest s url options))) with h | h
        · exact ⟨_, by rw [h]; simp, by simp [refreshCount], Or.inr (Or.inl rfl)⟩
        · exact ⟨_, by rw [h]; simp, by simp [refreshCount], Or.inr (Or.inr (Or.inl rfl))⟩
      | true =>
        obtain ⟨req2, h1, h2, _, _, _⟩ :=
          fetchProtected_refreshed_events_aux net s url options r1 hn hst hr
        exact ⟨_, h1, by simp [refreshCount], Or.inr (Or.inr (Or.inr ⟨req2, rfl, h2, rfl⟩))⟩
    · rw [fetchProtected_other_status net s url options r1 hn hst]
      exact ⟨_, rfl, by simp [refreshCount], Or.inl rfl⟩

/-- C17: a transport error of the first request is what `fetchProtected` rejects with, the
trace gaining only that request (no entry into the refresh operation) and the three tokens
staying as they were; and a transport error of the retried request (the request of the
same URL, method and body with the bearer of the refreshed access token) is what
`fetchProtected` rejects with. -/
theorem fetchProtected_transport_errors (net : Net) (s : State) (url : String)
    (options : Options) (e : String) :
    (net s.trace (firstRequest s url options) = Except.error e →
      (fetchProtected net s url options).1 = Except.error e ∧
      (fetchProtected net s url options).2.trace
        = s.trace ++ [Event.fetch (firstRequest s url options)] ∧
      refreshCount (fetchProtected net s url options).2.trace = refreshCount s.trace ∧
      (fetchProtected net s url options).2.accessToken = s.accessToken ∧
      (fetchProtected net s url options).2.refreshToken = s.refreshToken ∧
      (fetchProtected net s url options).2.storedRefreshToken = s.storedRefreshToken) ∧
    (∀ r1,
      net s.trace (firstRequest s url options) = Except.ok r1 → r1.status = 401 →
      (getNewAccessToken net (s.emit (Event.fetch (firstRequest s url options)))).1 = true →
      net (getNewAccessToken net (s.emit (Event.fetch (firstRequest s url options)))).2.trace
        (mkRequest url options ((firstHeaders s options).set "Authorization"
          ("Bearer " ++ (getNewAccessToken net
            (s.emit (Event.fetch (firstRequest s url options)))).2.accessToken.toStr)))
        = Except.error e →
      (fetchProtected net s url options).1 = Except.error e) := by
  constructor
  · intro hn
    rw [fetchProtected_transport_error net s url options e hn]
    refine ⟨rfl, rfl, ?_, rfl, rfl, rfl⟩
    simp [refreshCount_append, refreshCount]
  · intro r1 hn hst hr herr
    rw [fetchProtected_refreshed net s url options r1 hn hst hr]
    exact herr

/-- C17 at concrete inputs: a network that is down, and a network that goes down for the
retried request. -/
theorem fetchProtected_transport_errors_witness :
    (fetchProtected netDown loggedIn sampleUrl postOptions).1
      = Except.error "Failed to fetch" ∧
    (fetchProtected netDown loggedIn sampleUrl postOptions).2.accessToken
      = loggedIn.accessToken ∧
    (fetchProtected netRetryDown loggedIn sampleUrl postOptions).1
      = Except.error "Failed to fetch" :=
  ⟨((fetchProtected_transport_errors netDown loggedIn sampleUrl postOptions
      "Failed to fetch").1 rfl).1,
    ((fetchProtected_transport_errors netDown loggedIn sampleUrl postOptions
      "Failed to fetch").1 rfl).2.2.2.1,
    (fetchProtected_transport_errors netRetryDown loggedIn sampleUrl postOptions
      "Failed to fetch").2 (jsonResponse 401 (JsonData.obj [])) rfl rfl (by decide) rfl⟩

/-- C20: `handleLogin` changes no token when it fails. If the email or the password is
empty (then the trace is unchanged: no network call), or the login request fails at the
transport level, or its answer has an unreadable JSON body or a non-success status, then the
access token, the in-memory refresh token and the durable refresh token are the same after
the call as before it, and `initializeApp` is not started. -/
theorem handleLogin_failure_atomic (net : Net) (p : Page) (email password : String)
    (h : email = "" ∨ password = "" ∨
      (∃ e, net p.session.trace (loginRequest email password) = Except.error e) ∨
      (∃ response, net p.session.trace (loginRequest email password) = Except.ok response ∧
        ((∃ e, response.json = Except.error e) ∨ response.ok = false))) :
    (handleLogin net p email password).session.accessToken = p.session.accessToken ∧
    (handleLogin net p email password).session.refreshToken = p.session.refreshToken ∧
    (handleLogin net p email password).session.storedRefreshToken
      = p.session.storedRefreshToken ∧
    (handleLogin net p email password).initializeAppCalls = p.initializeAppCalls ∧
    (email = "" ∨ password = "" →
      (handleLogin net p email password).session.trace = p.session.trace) := by
  by_cases he : email = "" ∨ password = ""
  · rw [handleLogin_empty net p email password he]
    exact ⟨rfl, rfl, rfl, rfl, fun _ => rfl⟩
  · have hemail : email ≠ "" := fun hc => he (Or.inl hc)
    have hpassword : password ≠ "" := fun hc => he (Or.inr hc)
    have hx : ∃ message, loginExchange (net p.session.trace (loginRequest email password))
        = Except.error message := by
      rcases h with h | h | ⟨e, h⟩ | ⟨response, h, ⟨e, hj⟩ | hok⟩
      · exact absurd h hemail
      · exact absurd h hpassword
      · exact ⟨e, by rw [h]; rfl⟩
      · exact ⟨e, by rw [h]; exact loginExchange_unreadable response e hj⟩
      · obtain ⟨message, hm⟩ := loginExchange_not_ok response hok
        exact ⟨message, by rw [h]; exact hm⟩
    obtain ⟨message, hx⟩ := hx
    rw [handleLogin_error net p email password message hemail hpassword hx]
    exact ⟨rfl, rfl, rfl, rfl, fun hc => absurd hc he⟩

/-- C20 at a concrete input: a logged-in session whose new login is rejected with status
401 keeps its tokens. -/
theorem handleLogin_failure_atomic_witness :
    (handleLogin netLoginRejected (pageOf loggedIn) "ana@uni.mx" "mala").session.accessToken
      = JsVal.str "A1" ∧
    (handleLogin netLoginRejected (pageOf loggedIn) "ana@uni.mx" "mala").session.refreshToken
      = JsVal.str "R1" ∧
    (handleLogin netLoginRejected (pageOf loggedIn) "ana@uni.mx"
      "mala").session.storedRefreshToken = some "R1" ∧
    (handleLogin netLoginRejected (pageOf loggedIn) "ana@uni.mx" "mala").initializeAppCalls
      = 0 :=
  have h := handleLogin_failure_atomic netLoginRejected (pageOf loggedIn) "ana@uni.mx" "mala"
    (Or.inr (Or.inr (Or.inr
      ⟨jsonResponse 401 (JsonData.obj [("error", JsVal.str "Credenciales inválidas")]),
        rfl, Or.inr (by decide)⟩)))
  ⟨h.1, h.2.1, h.2.2.1, h.2.2.2.1⟩

/-- C18: for every text of the delete input, in both versions of `handleDelete`: the
handler makes no network call and shows "Error: Introduce al menos un ISBN." exactly when
every comma-separated piece of the text is empty after trimming; and otherwise its first
network call is a `DELETE` to `/books/delete` whose body is the object with the member
`isbns` listing the trimmed non-empty pieces of the text in their order. -/
theorem handleDelete_validation (net : Net) (firstMessage : String → Option String)
    (p : Page) :
    (((handleDelete net firstMessage p).session.trace = p.session.trace ∧
        (handleDelete net firstMessage p).deleteStatusText
          = "Error: Introduce al menos un ISBN.") ↔
      ∀ piece ∈ jsSplit p.deleteIsbns ',', jsTrim piece = "") ∧
    ((∃ piece ∈ jsSplit p.deleteIsbns ',', jsTrim piece ≠ "") →
      ∃ req rest,
        (handleDelete net firstMessage p).session.trace
          = p.session.trace ++ Event.fetch req :: rest ∧
        req.url = getRootApiUrl p ++ "/books/delete" ∧ req.method = some "DELETE" ∧
        req.body = some (Body.jsonArrayOf "isbns"
          (((jsSplit p.deleteIsbns ',').map jsTrim).filter (fun piece => piece ≠ "")))) ∧
    (((Reporte6.handleDelete net firstMessage p).session.trace = p.session.trace ∧
        (Reporte6.handleDelete net firstMessage p).deleteStatusText
          = "Error: Introduce al menos un ISBN.") ↔
      ∀ piece ∈ jsSplit p.deleteIsbns ',', jsTrim piece = "") ∧
    ((∃ piece ∈ jsSplit p.deleteIsbns ',', jsTrim piece ≠ "") →
      ∃ req rest,
        (Reporte6.handleDelete net firstMessage p).session.trace
          = p.session.trace ++ Event.fetch req :: rest ∧
        req.url = getRootApiUrl p ++ "/books/delete" ∧ req.method = some "DELETE" ∧
        req.body = some (Body.jsonArrayOf "isbns"
          (((jsSplit p.deleteIsbns ',').map jsTrim).filter (fun piece => piece ≠ "")))) := by
  have hnonempty : (∃ piece ∈ jsSplit p.deleteIsbns ',', jsTrim piece ≠ "") →
      deleteIsbnList p.deleteIsbns ≠ [] := by
    rintro ⟨piece, hmem, hne⟩ hnil
    exact hne ((deleteIsbnList_eq_nil_iff p.deleteIsbns).mp hnil piece hmem)
  have hgrow : ∀ (l : List Event) (e : Event) (rest : List Event), l ++ e :: rest ≠ l := by
    intro l e rest hc
    have := congrArg List.length hc
    simp at this
  refine ⟨⟨?_, ?_⟩, ?_, ⟨?_, ?_⟩, ?_⟩
  · rintro ⟨htrace, _⟩
    by_contra hall
    have hne : deleteIsbnList p.deleteIsbns ≠ [] :=
      fun hnil => hall ((deleteIsbnList_eq_nil_iff p.deleteIsbns).mp hnil)
    obtain ⟨rest, hrest⟩ := handleDelete_trace net firstMessage p hne
    rw [hrest] at htrace
    exact hgrow _ _ _ htrace
  · intro hall
    rw [handleDelete_empty net firstMessage p
      ((deleteIsbnList_eq_nil_iff p.deleteIsbns).mpr hall)]
    exact ⟨rfl, rfl⟩
  · intro hex
    obtain ⟨rest, hrest⟩ := handleDelete_trace net firstMessage p (hnonempty hex)
    refine ⟨_, rest, hrest, rfl, rfl, ?_⟩
    show some (Body.jsonArrayOf "isbns" (deleteIsbnList p.deleteIsbns)) = _
    rw [deleteIsbnList_eq]
  · rintro ⟨htrace, _⟩
    by_contra hall
    have hne : deleteIsbnList p.deleteIsbns ≠ [] :=
      fun hnil => hall ((deleteIsbnList_eq_nil_iff p.deleteIsbns).mp hnil)
    rw [Reporte6.handleDelete_plain_trace net firstMessage p hne] at htrace
    exact hgrow _ _ _ htrace
  · intro hall
    rw [Reporte6.handleDelete_plain_empty net firstMessage p
      ((deleteIsbnList_eq_nil_iff p.deleteIsbns).mpr hall)]
    exact ⟨rfl, rfl⟩
  · intro hex
    refine ⟨_, [], Reporte6.handleDelete_plain_trace net firstMessage p (hnonempty hex),
      rfl, rfl, ?_⟩
    show some (Body.jsonArrayOf "isbns" (deleteIsbnList p.deleteIsbns)) = _
    rw [deleteIsbnList_eq]

/-- C18 at concrete inputs: a text of commas and blanks is refused without a network call,
and a text with two ISBNs among blanks and empty pieces is sent. -/
theorem handleDelete_validation_witness :
    ((handleDelete netCreated sampleFirstMessage (deletePage " , ,")).session.trace
        = (deletePage " , ,").session.trace ∧
      (handleDelete netCreated sampleFirstMessage (deletePage " , ,")).deleteStatusText
        = "Error: Introduce al menos un ISBN.") ∧
    ∃ req rest,
      (handleDelete netCreated sampleFirstMessage (deletePage " 978-1 , 978-2 ,, ")).session.trace
        = (deletePage " 978-1 , 978-2 ,, ").session.trace ++ Event.fetch req :: rest ∧
      req.url = getRootApiUrl (deletePage " 978-1 , 978-2 ,, ") ++ "/books/delete" ∧
      req.method = some "DELETE" ∧
      req.body = some (Body.jsonArrayOf "isbns"
        (((jsSplit (deletePage " 978-1 , 978-2 ,, ").deleteIsbns ',').map jsTrim).filter
          (fun piece => piece ≠ ""))) :=
  ⟨(handleDelete_validation netCreated sampleFirstMessage (deletePage " , ,")).1.mpr
      (by decide),
    (handleDelete_validation netCreated sampleFirstMessage
      (deletePage " 978-1 , 978-2 ,, ")).2.1 ⟨" 978-1 ", by decide, by decide⟩⟩

/-- C19, the claim as stated fails: all eight fields are filled and the answer has status
201 and a body whose first `message` element has the empty text, yet the insert status does
not show "Éxito: " followed by that text: it shows "Éxito: Respuesta desconocida". -/
theorem handleInsert_empty_message :
    (∀ value ∈ insertPage.insertForm.requiredFields, jsTrim value ≠ "") ∧
    (fetchProtected netEmptyMessage insertPage.session
        (getRootApiUrl insertPage ++ "/books/insert")
        (insertOptions insertPage.insertForm)).1
      = Except.ok (xmlResponse 201 "<response><message></message></response>") ∧
    (xmlResponse 201 "<response><message></message></response>").ok = true ∧
    sampleFirstMessage (xmlResponse 201 "<response><message></message></response>").text
      = some "" ∧
    (handleInsert netEmptyMessage sampleFirstMessage insertPage).insertStatusText
      = "Éxito: Respuesta desconocida" ∧
    (handleInsert netEmptyMessage sampleFirstMessage insertPage).insertStatusText
      ≠ "Éxito: " ++ "" := by
  refine ⟨by decide, rfl, by decide, by decide, by decide, by decide⟩

/-- C19 as amended: when all eight required fields are non-blank and the answer that
`fetchProtected` resolves to has a readable body whose first `message` element has text `m`,
the text shown for the message is `m`, or "Respuesta desconocida" when `m` is empty; with a
success status the insert status is "Éxito: " followed by it and the eight fields are
cleared; with a non-success status `s` the insert status is "Error: " followed by it and by
" (Código: s)", and the fields keep their values. -/
theorem handleInsert_outcome (net : Net) (firstMessage : String → Option String) (p : Page)
    (response : Response) (m : String)
    (hfields : ∀ value ∈ p.insertForm.requiredFields, jsTrim value ≠ "")
    (hres : (fetchProtected net p.session (getRootApiUrl p ++ "/books/insert")
      (insertOptions p.insertForm)).1 = Except.ok response)
    (hreadable : response.textFailure = none)
    (hm : firstMessage response.text = some m) :
    (response.ok = true →
      (handleInsert net firstMessage p).insertStatusText
        = "Éxito: " ++ (if m ≠ "" then m else "Respuesta desconocida") ∧
      (handleInsert net firstMessage p).insertForm = InsertForm.cleared ∧
      (handleInsert net firstMessage p).insertForm.requiredFields
        = ["", "", "", "", "", "", "", ""]) ∧
    (response.ok = false →
      (handleInsert net firstMessage p).insertStatusText
        = "Error: " ++ (if m ≠ "" then m else "Respuesta desconocida") ++ " (Código: "
            ++ toString response.status ++ ")" ∧
      (handleInsert net firstMessage p).insertForm = p.insertForm) := by
  obtain ⟨h1, h2, _⟩ := handleInsert_answered net firstMessage p response hfields hres
  constructor
  · intro hok
    rw [h1, h2]
    simp [showOperationStatus, hreadable, hm, hok]
    rfl
  · intro hok
    rw [h1, h2]
    simp [showOperationStatus, hreadable, hm, hok]

/-- C19 as amended, at concrete inputs: an insert answered 201 with the message `Created`,
and one answered 409 with the message `Duplicate`. -/
theorem handleInsert_outcome_witness :
    ((handleInsert netCreated sampleFirstMessage insertPage).insertStatusText
        = "Éxito: Created" ∧
      (handleInsert netCreated sampleFirstMessage insertPage).insertForm
        = InsertForm.cleared) ∧
    ((handleInsert netDuplicate sampleFirstMessage insertPage).insertStatusText
        = "Error: Duplicate (Código: 409)" ∧
      (handleInsert netDuplicate sampleFirstMessage insertPage).insertForm
        = insertPage.insertForm) :=
  have h1 := (handleInsert_outcome netCreated sampleFirstMessage insertPage
    (xmlResponse 201 "<response><message>Created</message></response>") "Created"
    (by decide) rfl rfl (by decide)).1 (by decide)
  have h2 := (handleInsert_outcome netDuplicate sampleFirstMessage insertPage
    (xmlResponse 409 "<response><message>Duplicate</message></response>") "Duplicate"
    (by decide) rfl rfl (by decide)).2 (by decide)
  ⟨⟨h1.1, h1.2.1⟩, h2⟩

end MicroLibros
